import Mathlib

/-!
Verification development for the ezproxy-config-lint stanza processor
(package linter: linter.go, directives.go).

The Go code is shallowly embedded: strings are `List Char`, Go maps that
the processor only reads and point-updates are association lists, and the
two genuinely external collaborators (net/url parsing and the OCLC
Source-comment network lookup, see the external-interfaces section of the
design document) are taken as function parameters.  All definitions are
executable.
-/

namespace EZLint

/-- Strings of the embedded program: Go strings as lists of characters. -/
abbrev Str := List Char

/-- Whitespace predicate used by strings.TrimSpace and the regexp class
of space characters; models unicode.IsSpace on the ASCII range. -/
def goIsSpace (c : Char) : Bool :=
  c = ' ' || c = '\t' || c = '\n' || c = '\x0b' || c = '\x0c' || c = '\r'

/-- Models strings.TrimSpace (left part). -/
def goTrimLeft (s : Str) : Str := s.dropWhile goIsSpace

/-- Models strings.TrimSpace (right part). -/
def goTrimRight (s : Str) : Str := (s.reverse.dropWhile goIsSpace).reverse

/-- Models strings.TrimSpace. -/
def goTrimSpace (s : Str) : Str := goTrimRight (goTrimLeft s)

/-- Models strings.HasPrefix. -/
def goHasPfx (p s : Str) : Bool := p.isPrefixOf s

/-- Models strings.HasSuffix. -/
def goHasSfx (p s : Str) : Bool := p.isSuffixOf s

/-- Models strings.TrimPrefix. -/
def goTrimPfx (p s : Str) : Str := if goHasPfx p s then s.drop p.length else s

/-- Models strings.TrimSuffix. -/
def goTrimSfx (p s : Str) : Str :=
  if goHasSfx p s then s.take (s.length - p.length) else s

/-- Models strings.Split with the single-character separator (a space),
the only separator the processor splits lines on.  Like Go, splitting
the empty string yields one empty field, so the result is never empty. -/
def goSplitSpace : Str → List Str
  | [] => [[]]
  | c :: cs =>
    if c = ' ' then [] :: goSplitSpace cs
    else
      match goSplitSpace cs with
      | [] => [[c]]
      | t :: ts => (c :: t) :: ts

/-- Models strings.CutSuffix. -/
def goCutSuffix (s suffix : Str) : Str × Bool :=
  if goHasSfx suffix s then (s.take (s.length - suffix.length), true) else (s, false)

/-- Models strings.ReplaceAll for the one-character find and replace used
by ProcessProxyHostnameEdit (periods to hyphens). -/
def goReplaceAllChar (s : Str) (a b : Char) : Str :=
  s.map (fun c => if c = a then b else c)

/-- Models strings.Contains for the single-character needle used by
ProcessDomainAndDomainJavaScript. -/
def goContainsChar (s : Str) (c : Char) : Bool := s.contains c

/-- ASCII lowercasing of one character; models strings.ToLower on the
ASCII alphabet, which covers every key of the directive table. -/
def asciiLowerChar (c : Char) : Char :=
  match c with
  | 'A' => 'a' | 'B' => 'b' | 'C' => 'c' | 'D' => 'd' | 'E' => 'e'
  | 'F' => 'f' | 'G' => 'g' | 'H' => 'h' | 'I' => 'i' | 'J' => 'j'
  | 'K' => 'k' | 'L' => 'l' | 'M' => 'm' | 'N' => 'n' | 'O' => 'o'
  | 'P' => 'p' | 'Q' => 'q' | 'R' => 'r' | 'S' => 's' | 'T' => 't'
  | 'U' => 'u' | 'V' => 'v' | 'W' => 'w' | 'X' => 'x' | 'Y' => 'y'
  | 'Z' => 'z' | _ => c

/-- Models strings.ToLower on ASCII strings. -/
def goToLower (s : Str) : Str := s.map asciiLowerChar

/-- Models the fmt %q verb for the printable characters that appear in
directive names, titles and locations: quote and backslash-escape. -/
def goQuote (s : Str) : Str :=
  '"' :: (s.flatMap fun c => if c = '"' then ['\\', '"']
          else if c = '\\' then ['\\', '\\'] else [c]) ++ ['"']

/-- Association-list lookup; models reading a Go map. -/
def mapGet (m : List (Str × Str)) (k : Str) : Option Str :=
  (m.find? (fun kv => kv.1 = k)).map (·.2)

/-- Association-list update; models assigning to a Go map key. -/
def mapSet (m : List (Str × Str)) (k v : Str) : List (Str × Str) :=
  if (m.find? (fun kv => kv.1 = k)).isSome then
    m.map (fun kv => if kv.1 = k then (k, v) else kv)
  else m ++ [(k, v)]

/-- Models maps.Copy: every key of the source map is written into the
destination map. -/
def mapCopy (dst src : List (Str × Str)) : List (Str × Str) :=
  src.foldl (fun d kv => mapSet d kv.1 kv.2) dst

/-- The closed enumeration of directive kinds, from directives.go.
The constructors DbVar0 through DbVar9 are referenced by linter.go but
declared in a directives.go revision not present in the sources; they are
modelled from that usage as further distinct enumeration members. -/
inductive Directive where
  | Undefined
  | AddUserHeader
  | AllowIP
  | AllowVars
  | AnonymousURL
  | Audit
  | AuditPurge
  | AutoLoginIP
  | AutoLoginIPBanner
  | BinaryTimeout
  | Books24x7Site
  | ByteServe
  | CASServiceURL
  | ChargeSetLatency
  | Charset
  | ClientTimeout
  | ConnectWindow
  | Cookie
  | CookieFilter
  | DbVar
  | DbVar0
  | DbVar1
  | DbVar2
  | DbVar3
  | DbVar4
  | DbVar5
  | DbVar6
  | DbVar7
  | DbVar8
  | DbVar9
  | DenyIfRequestHeader
  | Description
  | DNS
  | Domain
  | DomainJavaScript
  | EBLSecret
  | EbrarySite
  | EncryptVar
  | ExcludeIP
  | ExcludeIPBanner
  | ExtraLoginCookie
  | Find
  | FirstPort
  | FormSelect
  | FormSubmit
  | FormVariable
  | Gartner
  | Group
  | HAName
  | HAPeer
  | Host
  | HostJavaScript
  | HTTPHeader
  | HTTPMethod
  | Identifier
  | IncludeFile
  | IncludeIP
  | Interface
  | IntruderIPAttempts
  | IntruderLog
  | IntruderUserAttempts
  | IntrusionAPI
  | LBPeer
  | Location
  | LogFile
  | LogFilter
  | LogFormat
  | LoginCookieDomain
  | LoginCookieName
  | LoginMenu
  | LoginPort
  | LoginPortSSL
  | LogSPU
  | MaxConcurrentTransfers
  | MaxLifetime
  | MaxSessions
  | MaxVirtualHosts
  | MessagesFile
  | MetaFind
  | MimeFilter
  | Name
  | NeverProxy
  | OptionAcceptXForwardedFor
  | OptionAllowSendGZip
  | OptionAllowWebSubdirectories
  | OptionAnyDNSHostname
  | OptionBlockCountryChange
  | OptionCookie
  | OptionCookiePassThrough
  | OptionCSRFToken
  | OptionDisableSSL40bit
  | OptionDisableSSL56bit
  | OptionDisableSSLv2
  | OptionDomainCookieOnly
  | OptionEbraryUnencodedTokens
  | OptionExcludeIPMenu
  | OptionForceHTTPSAdmin
  | OptionForceHTTPSLogin
  | OptionForceWildcardCertificate
  | OptionHideEZproxy
  | OptionHttpsHyphens
  | OptionIChooseToUseDomainLinesThatThreatenTheSecurityOfMyNetwork
  | OptionIgnoreWildcardCertificate
  | OptionIPv6
  | OptionLoginReplaceGroups
  | OptionLogReferer
  | OptionLogSAML
  | OptionLogSession
  | OptionLogSPUEdit
  | OptionLogUser
  | OptionMenuByGroups
  | OptionMetaEZproxyRewriting
  | OptionNoCookie
  | OptionNoHideEZproxy
  | OptionNoHttpsHyphens
  | OptionNoMetaEZproxyRewriting
  | OptionNoProxyFTP
  | OptionNoUTF16
  | OptionNoXForwardedFor
  | OptionProxyByHostname
  | OptionProxyFTP
  | OptionRecordPeaks
  | OptionRedirectUnknown
  | OptionReferInHostname
  | OptionRelaxedRADIUS
  | OptionRequireAuthenticate
  | OptionSafariCookiePatch
  | OptionStatusUser
  | OptionTicketIgnoreExcludeIP
  | OptionUnsafeRedirectUnknown
  | OptionUsernameCaretN
  | OptionUTF16
  | OptionXForwardedFor
  | OverDriveSite
  | PDFRefresh
  | PDFRefreshPost
  | PDFRefreshPre
  | PidFile
  | Proxy
  | ProxyHostnameEdit
  | ProxySSL
  | RADIUSRetry
  | RedirectSafe
  | Referer
  | RejectIP
  | RemoteIPHeader
  | RemoteIPInternalProxy
  | RemoteIPTrustedProxy
  | RemoteTimeout
  | Replace
  | RunAs
  | ShibbolethDisable
  | ShibbolethMetadata
  | SkipPort
  | SPUEdit
  | SPUEditVar
  | SQLiteTempDir
  | SSLCipherSuite
  | SSLHonorCipherOrder
  | SSLOpenSSLConfCmd
  | SSOUsername
  | Title
  | TokenKey
  | TokenSignatureKey
  | UMask
  | URL
  | URLAppendEncoded
  | URLRedirect
  | URLRedirectAppend
  | URLRedirectAppendEncoded
  | UsageLimit
  | Validate
  | XDebug
deriving DecidableEq

/-- Models the stringer-generated Directive.String(): the identifier,
except for Option variants whose line comments give two-word names. -/
def dirNameS : Directive → String
  | .Undefined => "Undefined"
  | .AddUserHeader => "AddUserHeader"
  | .AllowIP => "AllowIP"
  | .AllowVars => "AllowVars"
  | .AnonymousURL => "AnonymousURL"
  | .Audit => "Audit"
  | .AuditPurge => "AuditPurge"
  | .AutoLoginIP => "AutoLoginIP"
  | .AutoLoginIPBanner => "AutoLoginIPBanner"
  | .BinaryTimeout => "BinaryTimeout"
  | .Books24x7Site => "Books24x7Site"
  | .ByteServe => "ByteServe"
  | .CASServiceURL => "CASServiceURL"
  | .ChargeSetLatency => "ChargeSetLatency"
  | .Charset => "Charset"
  | .ClientTimeout => "ClientTimeout"
  | .ConnectWindow => "ConnectWindow"
  | .Cookie => "Cookie"
  | .CookieFilter => "CookieFilter"
  | .DbVar => "DbVar"
  | .DbVar0 => "DbVar0"
  | .DbVar1 => "DbVar1"
  | .DbVar2 => "DbVar2"
  | .DbVar3 => "DbVar3"
  | .DbVar4 => "DbVar4"
  | .DbVar5 => "DbVar5"
  | .DbVar6 => "DbVar6"
  | .DbVar7 => "DbVar7"
  | .DbVar8 => "DbVar8"
  | .DbVar9 => "DbVar9"
  | .DenyIfRequestHeader => "DenyIfRequestHeader"
  | .Description => "Description"
  | .DNS => "DNS"
  | .Domain => "Domain"
  | .DomainJavaScript => "DomainJavaScript"
  | .EBLSecret => "EBLSecret"
  | .EbrarySite => "EbrarySite"
  | .EncryptVar => "EncryptVar"
  | .ExcludeIP => "ExcludeIP"
  | .ExcludeIPBanner => "ExcludeIPBanner"
  | .ExtraLoginCookie => "ExtraLoginCookie"
  | .Find => "Find"
  | .FirstPort => "FirstPort"
  | .FormSelect => "FormSelect"
  | .FormSubmit => "FormSubmit"
  | .FormVariable => "FormVariable"
  | .Gartner => "Gartner"
  | .Group => "Group"
  | .HAName => "HAName"
  | .HAPeer => "HAPeer"
  | .Host => "Host"
  | .HostJavaScript => "HostJavaScript"
  | .HTTPHeader => "HTTPHeader"
  | .HTTPMethod => "HTTPMethod"
  | .Identifier => "Identifier"
  | .IncludeFile => "IncludeFile"
  | .IncludeIP => "IncludeIP"
  | .Interface => "Interface"
  | .IntruderIPAttempts => "IntruderIPAttempts"
  | .IntruderLog => "IntruderLog"
  | .IntruderUserAttempts => "IntruderUserAttempts"
  | .IntrusionAPI => "IntrusionAPI"
  | .LBPeer => "LBPeer"
  | .Location => "Location"
  | .LogFile => "LogFile"
  | .LogFilter => "LogFilter"
  | .LogFormat => "LogFormat"
  | .LoginCookieDomain => "LoginCookieDomain"
  | .LoginCookieName => "LoginCookieName"
  | .LoginMenu => "LoginMenu"
  | .LoginPort => "LoginPort"
  | .LoginPortSSL => "LoginPortSSL"
  | .LogSPU => "LogSPU"
  | .MaxConcurrentTransfers => "MaxConcurrentTransfers"
  | .MaxLifetime => "MaxLifetime"
  | .MaxSessions => "MaxSessions"
  | .MaxVirtualHosts => "MaxVirtualHosts"
  | .MessagesFile => "MessagesFile"
  | .MetaFind => "MetaFind"
  | .MimeFilter => "MimeFilter"
  | .Name => "Name"
  | .NeverProxy => "NeverProxy"
  | .OptionAcceptXForwardedFor => "Option AcceptX-Forwarded-For"
  | .OptionAllowSendGZip => "Option AllowSendGZip"
  | .OptionAllowWebSubdirectories => "Option AllowWebSubdirectories"
  | .OptionAnyDNSHostname => "Option AnyDNSHostname"
  | .OptionBlockCountryChange => "Option BlockCountryChange"
  | .OptionCookie => "Option Cookie"
  | .OptionCookiePassThrough => "Option CookiePassThrough"
  | .OptionCSRFToken => "Option CSRFToken"
  | .OptionDisableSSL40bit => "Option DisableSSL40bit"
  | .OptionDisableSSL56bit => "Option DisableSSL56bit"
  | .OptionDisableSSLv2 => "Option DisableSSLv2"
  | .OptionDomainCookieOnly => "Option DomainCookieOnly"
  | .OptionEbraryUnencodedTokens => "Option ebraryUnencodedTokens"
  | .OptionExcludeIPMenu => "Option ExcludeIPMenu"
  | .OptionForceHTTPSAdmin => "Option ForceHTTPSAdmin"
  | .OptionForceHTTPSLogin => "Option ForceHTTPSLogin"
  | .OptionForceWildcardCertificate => "Option ForceWildcardCertificate"
  | .OptionHideEZproxy => "Option HideEZproxy"
  | .OptionHttpsHyphens => "Option HttpsHyphens"
  | .OptionIChooseToUseDomainLinesThatThreatenTheSecurityOfMyNetwork =>
      "Option I choose to use Domain lines that threaten the security of my network"
  | .OptionIgnoreWildcardCertificate => "Option IgnoreWildcardCertificate"
  | .OptionIPv6 => "Option IPv6"
  | .OptionLoginReplaceGroups => "Option LoginReplaceGroups"
  | .OptionLogReferer => "Option LogReferer"
  | .OptionLogSAML => "Option LogSAML"
  | .OptionLogSession => "Option LogSession"
  | .OptionLogSPUEdit => "Option LogSPUEdit"
  | .OptionLogUser => "Option LogUser"
  | .OptionMenuByGroups => "Option MenuByGroups"
  | .OptionMetaEZproxyRewriting => "Option MetaEZproxyRewriting"
  | .OptionNoCookie => "Option NoCookie"
  | .OptionNoHideEZproxy => "Option NoHideEZproxy"
  | .OptionNoHttpsHyphens => "Option NoHttpsHyphens"
  | .OptionNoMetaEZproxyRewriting => "Option NoMetaEZproxyRewriting"
  | .OptionNoProxyFTP => "Option NoProxyFTP"
  | .OptionNoUTF16 => "Option NoUTF16"
  | .OptionNoXForwardedFor => "Option NoX-Forwarded-For"
  | .OptionProxyByHostname => "Option ProxyByHostname"
  | .OptionProxyFTP => "Option ProxyFTP"
  | .OptionRecordPeaks => "Option RecordPeaks"
  | .OptionRedirectUnknown => "Option RedirectUnknown"
  | .OptionReferInHostname => "Option ReferInHostname"
  | .OptionRelaxedRADIUS => "Option RelaxedRADIUS"
  | .OptionRequireAuthenticate => "Option RequireAuthenticate"
  | .OptionSafariCookiePatch => "Option SafariCookiePatch"
  | .OptionStatusUser => "Option StatusUser"
  | .OptionTicketIgnoreExcludeIP => "Option TicketIgnoreExcludeIP"
  | .OptionUnsafeRedirectUnknown => "Option UnsafeRedirectUnknown"
  | .OptionUsernameCaretN => "Option UsernameCaretN"
  | .OptionUTF16 => "Option UTF16"
  | .OptionXForwardedFor => "Option X-Forwarded-For"
  | .OverDriveSite => "OverDriveSite"
  | .PDFRefresh => "PDFRefresh"
  | .PDFRefreshPost => "PDFRefreshPost"
  | .PDFRefreshPre => "PDFRefreshPre"
  | .PidFile => "PidFile"
  | .Proxy => "Proxy"
  | .ProxyHostnameEdit => "ProxyHostnameEdit"
  | .ProxySSL => "ProxySSL"
  | .RADIUSRetry => "RADIUSRetry"
  | .RedirectSafe => "RedirectSafe"
  | .Referer => "Referer"
  | .RejectIP => "RejectIP"
  | .RemoteIPHeader => "RemoteIPHeader"
  | .RemoteIPInternalProxy => "RemoteIPInternalProxy"
  | .RemoteIPTrustedProxy => "RemoteIPTrustedProxy"
  | .RemoteTimeout => "RemoteTimeout"
  | .Replace => "Replace"
  | .RunAs => "RunAs"
  | .ShibbolethDisable => "ShibbolethDisable"
  | .ShibbolethMetadata => "ShibbolethMetadata"
  | .SkipPort => "SkipPort"
  | .SPUEdit => "SPUEdit"
  | .SPUEditVar => "SPUEditVar"
  | .SQLiteTempDir => "SQLiteTempDir"
  | .SSLCipherSuite => "SSLCipherSuite"
  | .SSLHonorCipherOrder => "SSLHonorCipherOrder"
  | .SSLOpenSSLConfCmd => "SSLOpenSSLConfCmd"
  | .SSOUsername => "SSOUsername"
  | .Title => "Title"
  | .TokenKey => "TokenKey"
  | .TokenSignatureKey => "TokenSignatureKey"
  | .UMask => "UMask"
  | .URL => "URL"
  | .URLAppendEncoded => "URLAppendEncoded"
  | .URLRedirect => "URLRedirect"
  | .URLRedirectAppend => "URLRedirectAppend"
  | .URLRedirectAppendEncoded => "URLRedirectAppendEncoded"
  | .UsageLimit => "UsageLimit"
  | .Validate => "Validate"
  | .XDebug => "XDebug"

/-- Directive name as an embedded string. -/
def dirName (d : Directive) : Str := (dirNameS d).data

/-- Directive quoted with the fmt %q verb, as the messages print it. -/
def qDir (d : Directive) : Str := goQuote (dirName d)

/-- Slice of the LabelToDirective map (part 0). -/
def labelTbl0 : List (String × Directive) := [
  ("A", .AutoLoginIP),
  ("AddUserHeader", .AddUserHeader),
  ("AllowIP", .AllowIP),
  ("AllowVars", .AllowVars),
  ("AnonymousURL", .AnonymousURL),
  ("Audit", .Audit),
  ("AuditPurge", .AuditPurge),
  ("AutoLoginIP", .AutoLoginIP),
  ("AutoLoginIPBanner", .AutoLoginIPBanner),
  ("BinaryTimeout", .BinaryTimeout),
  ("Books24x7Site", .Books24x7Site),
  ("ByteServe", .ByteServe),
  ("CASServiceURL", .CASServiceURL),
  ("ChargeSetLatency", .ChargeSetLatency),
  ("Charset", .Charset),
  ("ClientTimeout", .ClientTimeout),
  ("ConnectWindow", .ConnectWindow),
  ("Cookie", .Cookie),
  ("CookieFilter", .CookieFilter),
  ("D", .Domain),
  ("DbVar", .DbVar),
  ("DenyIfRequestHeader", .DenyIfRequestHeader),
  ("Description", .Description),
  ("DJ", .DomainJavaScript),
  ("DNS", .DNS)]

/-- Slice of the LabelToDirective map (part 1). -/
def labelTbl1 : List (String × Directive) := [
  ("Domain", .Domain),
  ("DomainJavaScript", .DomainJavaScript),
  ("E", .ExcludeIP),
  ("EBLSecret", .EBLSecret),
  ("ebrarySite", .EbrarySite),
  ("EncryptVar", .EncryptVar),
  ("ExcludeIP", .ExcludeIP),
  ("ExcludeIPBanner", .ExcludeIPBanner),
  ("ExtraLoginCookie", .ExtraLoginCookie),
  ("Find", .Find),
  ("FirstPort", .FirstPort),
  ("FormSelect", .FormSelect),
  ("FormSubmit", .FormSubmit),
  ("FormVariable", .FormVariable),
  ("Gartner", .Gartner),
  ("Group", .Group),
  ("H", .Host),
  ("HAName", .HAName),
  ("HAPeer", .HAPeer),
  ("HJ", .HostJavaScript),
  ("Host", .Host),
  ("HostJavaScript", .HostJavaScript),
  ("HTTPHeader", .HTTPHeader),
  ("HTTPMethod", .HTTPMethod),
  ("I", .IncludeIP)]

/-- Slice of the LabelToDirective map (part 2). -/
def labelTbl2 : List (String × Directive) := [
  ("Identifier", .Identifier),
  ("IncludeFile", .IncludeFile),
  ("IncludeIP", .IncludeIP),
  ("Interface", .Interface),
  ("IntruderIPAttempts", .IntruderIPAttempts),
  ("IntruderLog", .IntruderLog),
  ("IntruderUserAttempts", .IntruderUserAttempts),
  ("IntrusionAPI", .IntrusionAPI),
  ("LBPeer", .LBPeer),
  ("Location", .Location),
  ("LogFile", .LogFile),
  ("LogFilter", .LogFilter),
  ("LogFormat", .LogFormat),
  ("LoginCookieDomain", .LoginCookieDomain),
  ("LoginCookieName", .LoginCookieName),
  ("LoginMenu", .LoginMenu),
  ("LoginPort", .LoginPort),
  ("LoginPortSSL", .LoginPortSSL),
  ("LogSPU", .LogSPU),
  ("MaxConcurrentTransfers", .MaxConcurrentTransfers),
  ("MaxLifetime", .MaxLifetime),
  ("MaxSessions", .MaxSessions),
  ("MaxVirtualHosts", .MaxVirtualHosts),
  ("MC", .MaxConcurrentTransfers),
  ("MessagesFile", .MessagesFile)]

/-- Slice of the LabelToDirective map (part 3). -/
def labelTbl3 : List (String × Directive) := [
  ("MetaFind", .MetaFind),
  ("MimeFilter", .MimeFilter),
  ("ML", .MaxLifetime),
  ("MS", .MaxSessions),
  ("MV", .MaxVirtualHosts),
  ("Name", .Name),
  ("NeverProxy", .NeverProxy),
  ("Option AcceptX-Forwarded-For", .OptionAcceptXForwardedFor),
  ("Option AllowSendGZip", .OptionAllowSendGZip),
  ("Option AllowWebSubdirectories", .OptionAllowWebSubdirectories),
  ("Option AnyDNSHostname", .OptionAnyDNSHostname),
  ("Option BlockCountryChange", .OptionBlockCountryChange),
  ("Option Cookie", .OptionCookie),
  ("Option CookiePassThrough", .OptionCookiePassThrough),
  ("Option CSRFToken", .OptionCSRFToken),
  ("Option DisableSSL40bit", .OptionDisableSSL40bit),
  ("Option DisableSSL56bit", .OptionDisableSSL56bit),
  ("Option DisableSSLv2", .OptionDisableSSLv2),
  ("Option DomainCookieOnly", .OptionDomainCookieOnly),
  ("Option ebraryUnencodedTokens", .OptionEbraryUnencodedTokens),
  ("Option ExcludeIPMenu", .OptionExcludeIPMenu),
  ("Option ForceHTTPSAdmin", .OptionForceHTTPSAdmin),
  ("Option ForceHTTPSLogin", .OptionForceHTTPSLogin),
  ("Option ForceWildcardCertificate", .OptionForceWildcardCertificate),
  ("Option HideEZproxy", .OptionHideEZproxy)]

/-- Slice of the LabelToDirective map (part 4). -/
def labelTbl4 : List (String × Directive) := [
  ("Option HttpsHyphens", .OptionHttpsHyphens),
  ("Option I choose to use Domain lines that threaten the security of my network",
    .OptionIChooseToUseDomainLinesThatThreatenTheSecurityOfMyNetwork),
  ("Option IgnoreWildcardCertificate", .OptionIgnoreWildcardCertificate),
  ("Option IPv6", .OptionIPv6),
  ("Option LoginReplaceGroups", .OptionLoginReplaceGroups),
  ("Option LogReferer", .OptionLogReferer),
  ("Option LogSAML", .OptionLogSAML),
  ("Option LogSession", .OptionLogSession),
  ("Option LogSPUEdit", .OptionLogSPUEdit),
  ("Option LogUser", .OptionLogUser),
  ("Option MenuByGroups", .OptionMenuByGroups),
  ("Option MetaEZproxyRewriting", .OptionMetaEZproxyRewriting),
  ("Option NoCookie", .OptionNoCookie),
  ("Option NoHideEZproxy", .OptionNoHideEZproxy),
  ("Option NoHttpsHyphens", .OptionNoHttpsHyphens),
  ("Option NoMetaEZproxyRewriting", .OptionNoMetaEZproxyRewriting),
  ("Option NoProxyFTP", .OptionNoProxyFTP),
  ("Option NoUTF16", .OptionNoUTF16),
  ("Option NoX-Forwarded-For", .OptionNoXForwardedFor),
  ("Option ProxyByHostname", .OptionProxyByHostname),
  ("Option ProxyFTP", .OptionProxyFTP),
  ("Option RecordPeaks", .OptionRecordPeaks),
  ("Option RedirectUnknown", .OptionRedirectUnknown),
  ("Option ReferInHostname", .OptionReferInHostname),
  ("Option RelaxedRADIUS", .OptionRelaxedRADIUS)]

/-- Slice of the LabelToDirective map (part 5). -/
def labelTbl5 : List (String × Directive) := [
  ("Option RequireAuthenticate", .OptionRequireAuthenticate),
  ("Option SafariCookiePatch", .OptionSafariCookiePatch),
  ("Option StatusUser", .OptionStatusUser),
  ("Option TicketIgnoreExcludeIP", .OptionTicketIgnoreExcludeIP),
  ("Option UnsafeRedirectUnknown", .OptionUnsafeRedirectUnknown),
  ("Option UsernameCaretN", .OptionUsernameCaretN),
  ("Option UTF16", .OptionUTF16),
  ("Option X-Forwarded-For", .OptionXForwardedFor),
  ("OverDriveSite", .OverDriveSite),
  ("PDFRefresh", .PDFRefresh),
  ("PDFRefreshPost", .PDFRefreshPost),
  ("PDFRefreshPre", .PDFRefreshPre),
  ("PHE", .ProxyHostnameEdit),
  ("PidFile", .PidFile),
  ("PIDFile", .PidFile),
  ("Proxy", .Proxy),
  ("ProxyHostnameEdit", .ProxyHostnameEdit),
  ("ProxySSL", .ProxySSL),
  ("RADIUSRetry", .RADIUSRetry),
  ("RedirectSafe", .RedirectSafe),
  ("Referer", .Referer),
  ("RejectIP", .RejectIP),
  ("RemoteIPHeader", .RemoteIPHeader),
  ("RemoteIPInternalProxy", .RemoteIPInternalProxy),
  ("RemoteIPTrustedProxy", .RemoteIPTrustedProxy)]

/-- Slice of the LabelToDirective map (part 6). -/
def labelTbl6 : List (String × Directive) := [
  ("RemoteTimeout", .RemoteTimeout),
  ("Replace", .Replace),
  ("RunAs", .RunAs),
  ("ShibbolethDisable", .ShibbolethDisable),
  ("ShibbolethMetadata", .ShibbolethMetadata),
  ("SkipPort", .SkipPort),
  ("SPUEdit", .SPUEdit),
  ("SPUEditVar", .SPUEditVar),
  ("SQLiteTempDir", .SQLiteTempDir),
  ("SSLCipherSuite", .SSLCipherSuite),
  ("SSLHonorCipherOrder", .SSLHonorCipherOrder),
  ("SSLOpenSSLConfCmd", .SSLOpenSSLConfCmd),
  ("SSOUsername", .SSOUsername),
  ("T", .Title),
  ("Title", .Title),
  ("TokenKey", .TokenKey),
  ("TokenSignatureKey", .TokenSignatureKey),
  ("U", .URL),
  ("UMask", .UMask),
  ("URL", .URL),
  ("URLAppendEncoded ", .URLAppendEncoded),
  ("URLRedirect", .URLRedirect),
  ("URLRedirectAppend", .URLRedirectAppend),
  ("URLRedirectAppendEncoded", .URLRedirectAppendEncoded),
  ("UsageLimit", .UsageLimit)]

/-- Slice of the LabelToDirective map (part 7). -/
def labelTbl7 : List (String × Directive) := [
  ("Validate", .Validate),
  ("XDebug", .XDebug)]

/-- The LabelToDirective map of directives.go, as an association list in
source order, assembled from the slices above.  Note the key with a
trailing space for URLAppendEncoded, exactly as in the source. -/
def labelToDirective : List (String × Directive) :=
  labelTbl0 ++ labelTbl1 ++ labelTbl2 ++ labelTbl3 ++ labelTbl4 ++ labelTbl5 ++ labelTbl6 ++ labelTbl7

/-- Exact-case lookup in the LabelToDirective map. -/
def lookupLabel (label : Str) : Option Directive :=
  (labelToDirective.find? (fun kv => kv.1.data = label)).map (·.2)

/-- Lookup in the LowercaseLabelToDirective map, which is derived from
LabelToDirective by lowercasing every key (the init function of
directives.go); callers pass the already-lowercased label. -/
def lookupLowerLabel (label : Str) : Option Directive :=
  (labelToDirective.find? (fun kv => goToLower kv.1.data = label)).map (·.2)

/-- Result of net/url.Parse as the processor consumes it: the scheme,
host (including any port) and path components.  The parser itself is a
standard-library collaborator and enters the model as a parameter. -/
structure URLRec where
  scheme : Str
  host : Str
  path : Str
deriving DecidableEq

/-- External URL parser: models url.Parse, error text included. -/
abbrev Parse := Str → Except Str URLRec

/-- External OCLC lookup: models processSourceLine, which validates the
Source comment and performs a network fetch (an external interface);
returns the source URL and the OCLC title, or an error text. -/
abbrev Fetch := Str → Except Str (Str × Str)

/-- The per-stanza mutable state, struct State of linter.go. -/
structure State where
  AddUserHeaderNeedsClosing : Bool
  AnonymousURLNeedsClosing : Bool
  OpenOptions : List Directive
  InMultiline : Bool
  LastLineEmpty : Bool
  OCLCTitle : Str
  Label : Str
  Current : Directive
  IsSeparator : Bool
  Previous : Directive
  PreviousMultilineSegments : Str
  Source : Str
  ProxyHostnameEditPatterns : List Str
  Title : Str
  URL : Str
  URLOrigin : Str
  URLAt : Str
  StanzaOrigins : List (Str × Str)
deriving DecidableEq

/-- The zero value of struct State: what Go gives a fresh stanza.  The
ProxyHostnameEditPatterns map stores, for every find token seen, the
compiled subdomain regexp derived from it; since that regexp is a pure
function of the token, the model stores the tokens (insertion order). -/
def State.zero : State :=
  { AddUserHeaderNeedsClosing := false
    AnonymousURLNeedsClosing := false
    OpenOptions := []
    InMultiline := false
    LastLineEmpty := false
    OCLCTitle := []
    Label := []
    Current := .Undefined
    IsSeparator := false
    Previous := .Undefined
    PreviousMultilineSegments := []
    Source := []
    ProxyHostnameEditPatterns := []
    Title := []
    URL := []
    URLOrigin := []
    URLAt := []
    StanzaOrigins := [] }

/-- The Linter record of linter.go.  The Output writer is the diagnostic
sink (a collaborator never read by ProcessLineAt) and is omitted. -/
structure Linter where
  Annotate : Bool
  Verbose : Bool
  AdditionalPHEChecks : Bool
  DirectiveCase : Bool
  HTTPS : Bool
  Origins : Bool
  Source : Bool
  Whitespace : Bool
  FollowIncludeFile : Bool
  IncludeFileDirectory : Str
  State : State
  PreviousTitles : List (Str × Str)
  PreviousOrigins : List (Str × Str)
deriving DecidableEq

/-- A fresh Linter with every flag off and empty maps, the zero value a
plain `linter.Linter{}` literal carries. -/
def Linter.zero : Linter :=
  { Annotate := false
    Verbose := false
    AdditionalPHEChecks := false
    DirectiveCase := false
    HTTPS := false
    Origins := false
    Source := false
    Whitespace := false
    FollowIncludeFile := false
    IncludeFileDirectory := []
    State := State.zero
    PreviousTitles := []
    PreviousOrigins := [] }

/-- The OptionPairs opener-to-closer table of linter.go, in source
order. -/
def optionPairsList : List (Directive × Directive) := [
  (.OptionDomainCookieOnly, .OptionCookie),
  (.OptionNoCookie, .OptionCookie),
  (.OptionCookiePassThrough, .OptionCookie),
  (.OptionHideEZproxy, .OptionNoHideEZproxy),
  (.OptionNoHttpsHyphens, .OptionHttpsHyphens),
  (.OptionMetaEZproxyRewriting, .OptionNoMetaEZproxyRewriting),
  (.OptionProxyFTP, .OptionNoProxyFTP),
  (.OptionUTF16, .OptionNoUTF16),
  (.OptionXForwardedFor, .OptionNoXForwardedFor)]

/-- Reading the OptionPairs map; an absent key yields the zero value
Undefined, as a Go map read does. -/
def optionPair (d : Directive) : Directive :=
  ((optionPairsList.find? (fun kv => kv.1 = d)).map (·.2)).getD .Undefined

/-- OpenerOptions: the keys of OptionPairs. -/
def openerOptions : List Directive := optionPairsList.map (·.1)

/-- CloserOptions: the values of OptionPairs. -/
def closerOptions : List Directive := optionPairsList.map (·.2)

/-- TrimLabel of linter.go. -/
def TrimLabel (line label : Str) : Str := goTrimSpace (goTrimPfx label line)

/-- TrailingSpaceOrTabCheck of linter.go. -/
def TrailingSpaceOrTabCheck (line : Str) : Bool :=
  goHasSfx [' '] line || goHasSfx ['\t'] line

/-! Diagnostic texts.  Each is the fmt string of linter.go with its
verbs spelled out; %q of a string or Directive is goQuote/qDir. -/

/-- Diagnostic L5002. -/
def msgL5002 : Str := "Line ends in a space or tab character (L5002)".data

/-- Diagnostic L4003. -/
def msgL4003 (t : Str) : Str :=
  "Stanza ".data ++ goQuote t ++ " has Title but no URL (L4003)".data

/-- Diagnostic L4005. -/
def msgL4005 (t : Str) : Str :=
  "Stanza ".data ++ goQuote t ++
    " uses AddUserHeader but doesn\x27t have a corresponding \"AddUserHeader\" line at the end of the stanza (L4005)".data

/-- Diagnostic L4001. -/
def msgL4001 (t : Str) : Str :=
  "Stanza ".data ++ goQuote t ++
    " has AnonymousURL but doesn\x27t have a corresponding \"AnonymousURL -*\" line at the end of the stanza (L4001)".data

/-- Diagnostic L4002. -/
def msgL4002 (t : Str) (opt : Directive) : Str :=
  "Stanza ".data ++ goQuote t ++ " has ".data ++ qDir opt ++
    " but doesn\x27t have a corresponding ".data ++ qDir (optionPair opt) ++
    " line at the end of the stanza (L4002)".data

/-- Diagnostic L9003 (the doubled s is in the source). -/
def msgL9003 (e : Str) : Str :=
  "Error processsing Source line (L9003): ".data ++ e

/-- Diagnostic L3008. -/
def msgL3008 : Str :=
  "Option directive not in the form \"Option OPTIONNAME\" (L3008)".data

/-- Diagnostic L9001. -/
def msgL9001 (lbl : Str) : Str :=
  "Unknown directive ".data ++ goQuote lbl ++ " (L9001)".data

/-- Diagnostic L5001. -/
def msgL5001 (lbl : Str) (d : Directive) : Str :=
  goQuote lbl ++
    " directive does not have the right letter casing. It should be replaced by ".data ++
    qDir d ++ " (L5001)".data

/-- Diagnostic L4004. -/
def msgL4004 : Str :=
  "\"Find\" directive must be immediately proceeded with a \"Replace\" directive (L4004)".data

/-- Diagnostic L1005. -/
def msgL1005 (cur prev : Directive) : Str :=
  qDir cur ++ " directive is out of order, previous directive: ".data ++
    qDir prev ++ " (L1005)".data

/-- Diagnostic L1006. -/
def msgL1006 (cur prev : Directive) : Str :=
  qDir cur ++ " directive is out of order, previous directive: ".data ++
    qDir prev ++ " (L1006)".data

/-- Diagnostic L1008. -/
def msgL1008 (prev : Directive) : Str :=
  "\"ProxyHostnameEdit\" directive is out of order, previous directive: ".data ++
    qDir prev ++ " (L1008)".data

/-- Diagnostic L3001. -/
def msgL3001 : Str :=
  "\"ProxyHostnameEdit\" directive must have both a find and replace qualifier (L3001)".data

/-- Diagnostic L3002. -/
def msgL3002 : Str :=
  "Find part of \"ProxyHostnameEdit\" directive should end with a $ (L3002)".data

/-- Diagnostic L3003. -/
def msgL3003 : Str :=
  "Replace part of \"ProxyHostnameEdit\" directive is malformed (L3003)".data

/-- Diagnostic L1009. -/
def msgL1009 (pat : Str) : Str :=
  "\"ProxyHostnameEdit\" domains should be placed in deepest-to-shallowest order, previous pattern: ".data ++
    goQuote pat ++ " (L1009)".data

/-- Diagnostic L1011. -/
def msgL1011 (prev : Directive) : Str :=
  "\"AddUserHeader\" directive with no qualifiers is out of order, previous directive: ".data ++
    qDir prev ++ " (L1011)".data

/-- Diagnostic L1012. -/
def msgL1012 (prev : Directive) : Str :=
  "\"AddUserHeader\" directive is out of order, previous directive: ".data ++
    qDir prev ++ " (L1012)".data

/-- Diagnostic L1003. -/
def msgL1003 (prev : Directive) : Str :=
  "\"AnonymousURL -*\" directive is out of order, previous directive: ".data ++
    qDir prev ++ " (L1003)".data

/-- Diagnostic L1004. -/
def msgL1004 (prev : Directive) : Str :=
  "\"AnonymousURL\" directive is out of order, previous directive: ".data ++
    qDir prev ++ " (L1004)".data

/-- Diagnostic L1001. -/
def msgL1001 (prev : Directive) : Str :=
  "\"Title\" directive is out of order, previous directive: ".data ++
    qDir prev ++ " (L1001)".data

/-- Diagnostic L2001. -/
def msgL2001 : Str := "Duplicate \"Title\" directive in stanza (L2001)".data

/-- Diagnostic L2004. -/
def msgL2004 (loc : Str) : Str :=
  "\"Title\" directive value already seen at ".data ++ goQuote loc ++ " (L2004)".data

/-- Diagnostic L9002. -/
def msgL9002 : Str :=
  "Source title doesn\x27t match, you might need to update this stanza (L9002)".data

/-- Diagnostic L1013. -/
def msgL1013 (prev : Directive) : Str :=
  "\"Description\" directive is out of order, previous directive: ".data ++
    qDir prev ++ " (L1013)".data

/-- Diagnostic L3005. -/
def msgL3005 (e : Str) : Str :=
  "Unable to parse URL, might be malformed: ".data ++ e ++ " (L3005)".data

/-- Diagnostic L2002 (cross-stanza origin reuse). -/
def msgL2002 (loc : Str) : Str :=
  "Origin already seen at ".data ++ goQuote loc ++ " (L2002)".data

/-- Diagnostic L2005 (intra-stanza origin reuse, stricter mode). -/
def msgL2005 (loc : Str) : Str :=
  "Origin already seen at ".data ++ goQuote loc ++ " (L2005)".data

/-- Diagnostic L3004. -/
def msgL3004 : Str :=
  "Domain and DomainJavaScript directives should only specify domains (L3004)".data

/-- Diagnostic L1002. -/
def msgL1002 (prev : Directive) : Str :=
  "\"URL\" directive is out of order, previous directive: ".data ++
    qDir prev ++ " (L1002)".data

/-- Diagnostic L1010. -/
def msgL1010 : Str :=
  "\"URL\" directive is before \"Title\" directive (L1010)".data

/-- Diagnostic L2003. -/
def msgL2003 : Str := "Duplicate \"URL\" directive in stanza (L2003)".data

/-- Diagnostic L3009. -/
def msgL3009 : Str :=
  "\"URL\" directive is not in the right format. (L3009)".data

/-- Diagnostic L3006. -/
def msgL3006 : Str := "URL does not start with http or https (L3006)".data

/-- Diagnostic L3007. -/
def msgL3007 : Str := "URL is not using HTTPS scheme (L3007)".data

/-! The three URL-line regular expressions of linter.go, rendered as
explicit anchored matchers.  The global (?i) flag is ASCII-lowercase
comparison; each matcher returns what the final capture group (the URL,
a final run of non-space characters) matched. -/

/-- Case-insensitive literal prefix: strip p from the front of s. -/
def ciStripPfx (p s : Str) : Option Str :=
  if p.length ≤ s.length && goToLower (s.take p.length) = goToLower p then
    some (s.drop p.length)
  else none

/-- One-or-more whitespace characters, greedily consumed. -/
def stripSpaces1 (s : Str) : Option Str :=
  match s with
  | c :: cs => if goIsSpace c then some (cs.dropWhile goIsSpace) else none
  | [] => none

/-- A final capture of one-or-more non-space characters reaching the
anchored end of the text. -/
def tokEnd (s : Str) : Option Str :=
  if s ≠ [] && s.all (fun c => !goIsSpace c) then some s else none

/-- Two whitespace-separated final tokens; yields the second, the text
the last capture group of the version 2 and 3 regexes matches. -/
def twoTokEnd (s : Str) : Option Str :=
  let t1 := s.takeWhile (fun c => !goIsSpace c)
  if t1 = [] then none
  else (stripSpaces1 (s.dropWhile (fun c => !goIsSpace c))).bind tokEnd

/-- The label part U(RL)? of each regex: try the longer spelling first,
falling back to the one-letter form, as a backtracking engine does. -/
def stripURLLabel (tail : Str → Option Str) (line : Str) : Option Str :=
  (((ciStripPfx "url".data line).bind tail).orElse
    (fun _ => (ciStripPfx "u".data line).bind tail))

/-- An optional literal qualifier group followed by optional whitespace:
try the qualifier, fall back to skipping it. -/
def optQual (q : Str) (k : Str → Option Str) (s : Str) : Option Str :=
  (((ciStripPfx q s).bind (fun r => k (r.dropWhile goIsSpace))).orElse
    (fun _ => k (s.dropWhile goIsSpace)))

/-- Matcher for URLV1Regex. -/
def matchV1 (line : Str) : Option Str :=
  stripURLLabel (fun r => (stripSpaces1 r).bind tokEnd) line

/-- Matcher for URLV2Regex. -/
def matchV2 (line : Str) : Option Str :=
  stripURLLabel
    (fun r => (stripSpaces1 r).bind
      (optQual "-Refresh ".data
        (optQual "-Redirect ".data
          (optQual "-Append -Encoded ".data twoTokEnd))))
    line

/-- ASCII letter class of the version 3 regex. -/
def isAsciiLetter (c : Char) : Bool :=
  ('A' ≤ c && c ≤ 'Z') || ('a' ≤ c && c ≤ 'z')

/-- Matcher for URLV3Regex: label, -Form=, a letters-plus-space method,
an optional -RewriteHost qualifier, then two final tokens. -/
def matchV3 (line : Str) : Option Str :=
  stripURLLabel
    (fun r => (stripSpaces1 r).bind fun r0 =>
      (ciStripPfx "-form=".data r0).bind fun r1 =>
        let letters := r1.takeWhile isAsciiLetter
        if letters = [] then none
        else
          match r1.drop letters.length with
          | ' ' :: r2 => optQual "-RewriteHost ".data twoTokEnd (r2.dropWhile goIsSpace)
          | _ => none)
    line

/-- FindURLFromLine of linter.go: first regex that matches wins. -/
def FindURLFromLine (line : Str) : Str :=
  match matchV1 line with
  | some u => u
  | none =>
    match matchV2 line with
    | some u => u
    | none =>
      match matchV3 line with
      | some u => u
      | none => []

/-! Per-directive processors, each the linter.go method of the same
name: a function of the Linter returning the diagnostics and the
updated Linter. -/

/-- ProcessOptionOpener of linter.go. -/
def ProcessOptionOpener (l : Linter) : List Str × Linter :=
  let allowedPreviousDirectives : List Directive :=
    [.Undefined, .Group, .DbVar, .DbVar0, .DbVar1, .DbVar2, .DbVar3, .DbVar4,
     .DbVar5, .DbVar6, .DbVar7, .DbVar8, .DbVar9, .HTTPMethod, .AddUserHeader,
     .AnonymousURL, .OptionCookie] ++ openerOptions
  let m := if allowedPreviousDirectives.contains l.State.Previous then []
           else [msgL1005 l.State.Current l.State.Previous]
  (m, { l with State :=
          { l.State with OpenOptions := l.State.OpenOptions ++ [l.State.Current] } })

/-- ProcessOptionCloser of linter.go; slices.DeleteFunc keeps, in order,
the open options whose paired closer is not the current directive. -/
def ProcessOptionCloser (l : Linter) : List Str × Linter :=
  let allowedPreviousDirectives : List Directive :=
    [.DbVar, .URL, .Host, .HostJavaScript, .Domain, .DomainJavaScript, .Replace,
     .AddUserHeader, .AnonymousURL, .NeverProxy] ++ closerOptions
  let m := if allowedPreviousDirectives.contains l.State.Previous then []
           else [msgL1006 l.State.Current l.State.Previous]
  let kept := l.State.OpenOptions.filter (fun d => !(optionPair d = l.State.Current))
  (m, { l with State := { l.State with OpenOptions := kept } })

/-- ProcessProxyHostnameEdit of linter.go.  The compiled pattern for a
find token matches exactly the strings ending in a period followed by
that token, so MatchString is a suffix test here. -/
def ProcessProxyHostnameEdit (l : Linter) (line : Str) : List Str × Linter :=
  let allowedPreviousDirectives : List Directive :=
    [.Undefined, .Group, .HTTPMethod, .Cookie, .DbVar, .DbVar0, .DbVar1, .DbVar2,
     .DbVar3, .DbVar4, .DbVar5, .DbVar6, .DbVar7, .DbVar8, .DbVar9,
     .AddUserHeader, .AnonymousURL, .OptionCookie, .ProxyHostnameEdit] ++
    openerOptions
  let m1 := if allowedPreviousDirectives.contains l.State.Previous then []
            else [msgL1008 l.State.Previous]
  match goSplitSpace (TrimLabel line l.State.Label) with
  | [f, r] =>
    if l.AdditionalPHEChecks then
      let cut := goCutSuffix f ['$']
      let m2 := if cut.2 then [] else [msgL3002]
      let m3 := if goReplaceAllChar cut.1 '.' '-' = r then [] else [msgL3003]
      let m4 := (l.State.ProxyHostnameEditPatterns.filter
                  (fun pat => goHasSfx ('.' :: pat) cut.1)).map msgL1009
      let pats := if l.State.ProxyHostnameEditPatterns.contains cut.1 then
                    l.State.ProxyHostnameEditPatterns
                  else l.State.ProxyHostnameEditPatterns ++ [cut.1]
      (m1 ++ m2 ++ m3 ++ m4,
       { l with State := { l.State with ProxyHostnameEditPatterns := pats } })
    else (m1, l)
  | _ => (m1 ++ [msgL3001], l)

/-- ProcessAddUserHeader of linter.go. -/
def ProcessAddUserHeader (l : Linter) (line : Str) : List Str × Linter :=
  if TrimLabel line l.State.Label = [] then
    let allowedPreviousDirectives : List Directive :=
      [.URL, .Host, .HostJavaScript, .Domain, .DomainJavaScript, .Replace,
       .AnonymousURL, .NeverProxy] ++ closerOptions
    let m := if allowedPreviousDirectives.contains l.State.Previous then []
             else [msgL1011 l.State.Previous]
    (m, { l with State := { l.State with AddUserHeaderNeedsClosing := false } })
  else
    let allowedPreviousDirectives : List Directive :=
      [.Undefined, .Group, .HTTPMethod, .Cookie, .DbVar, .DbVar0, .DbVar1,
       .DbVar2, .DbVar3, .DbVar4, .DbVar5, .DbVar6, .DbVar7, .DbVar8, .DbVar9,
       .AddUserHeader, .AnonymousURL, .OptionCookie, .ProxyHostnameEdit] ++
      openerOptions
    let m := if allowedPreviousDirectives.contains l.State.Previous then []
             else [msgL1012 l.State.Previous]
    (m, { l with State := { l.State with AddUserHeaderNeedsClosing := true } })

/-- ProcessAnonymousURL of linter.go. -/
def ProcessAnonymousURL (l : Linter) (line : Str) : List Str × Linter :=
  if TrimLabel line l.State.Label = "-*".data then
    let allowedPreviousDirectives : List Directive :=
      [.URL, .Host, .HostJavaScript, .Domain, .DomainJavaScript, .Replace,
       .AddUserHeader, .NeverProxy] ++ closerOptions
    let m := if allowedPreviousDirectives.contains l.State.Previous then []
             else [msgL1003 l.State.Previous]
    (m, { l with State := { l.State with AnonymousURLNeedsClosing := false } })
  else
    let allowedPreviousDirectives : List Directive :=
      [.Undefined, .Group, .HTTPMethod, .Cookie, .DbVar, .DbVar0, .DbVar1,
       .DbVar2, .DbVar3, .DbVar4, .DbVar5, .DbVar6, .DbVar7, .DbVar8, .DbVar9,
       .AddUserHeader, .AnonymousURL, .ProxyHostnameEdit] ++ openerOptions
    let m := if allowedPreviousDirectives.contains l.State.Previous then []
             else [msgL1004 l.State.Previous]
    (m, { l with State := { l.State with AnonymousURLNeedsClosing := true } })

/-- ProcessTitle of linter.go. -/
def ProcessTitle (l : Linter) (line loc : Str) : List Str × Linter :=
  let allowedPreviousDirectives : List Directive :=
    [.Undefined, .Group, .HTTPMethod, .AddUserHeader, .AnonymousURL,
     .ProxyHostnameEdit, .Referer, .Cookie, .DbVar, .DbVar0, .DbVar1, .DbVar2,
     .DbVar3, .DbVar4, .DbVar5, .DbVar6, .DbVar7, .DbVar8, .DbVar9,
     .OptionEbraryUnencodedTokens, .OptionCookie] ++ openerOptions
  let m1 := if allowedPreviousDirectives.contains l.State.Previous then []
            else [msgL1001 l.State.Previous]
  let m2 := if !l.State.AnonymousURLNeedsClosing && l.State.Previous = .AnonymousURL
            then [msgL1001 l.State.Previous] else []
  let m3 := if l.State.Title ≠ [] then [msgL2001] else []
  let newTitle := TrimLabel line l.State.Label
  let seen := mapGet l.PreviousTitles newTitle
  let m4 := match seen with
            | some loc => [msgL2004 loc]
            | none => []
  let titles := match seen with
                | some _ => l.PreviousTitles
                | none => mapSet l.PreviousTitles newTitle loc
  let titleWithHideRemoved := goTrimPfx "-Hide ".data newTitle
  let m5 := if l.State.OCLCTitle ≠ [] && newTitle ≠ l.State.OCLCTitle &&
               titleWithHideRemoved ≠ l.State.OCLCTitle then [msgL9002] else []
  (m1 ++ m2 ++ m3 ++ m4 ++ m5,
   { l with State := { l.State with Title := newTitle }, PreviousTitles := titles })

/-- ProcessDescription of linter.go. -/
def ProcessDescription (l : Linter) (_line _loc : Str) : List Str × Linter :=
  let allowedPreviousDirectives : List Directive := [.Title, .Description]
  let m := if allowedPreviousDirectives.contains l.State.Previous then []
           else [msgL1013 l.State.Previous]
  (m, { l with State := { l.State with IsSeparator := true } })

/-- ProcessHostAndHostJavaScript of linter.go. -/
def ProcessHostAndHostJavaScript (p : Parse) (l : Linter) (line loc : Str) :
    List Str × Linter :=
  let trimmed := TrimLabel line l.State.Label
  match p trimmed with
  | .error e => ([msgL3005 e], l)
  | .ok first =>
    let retry : Except Str URLRec :=
      if first.host = [] then p ("http://".data ++ trimmed) else .ok first
    match retry with
    | .error e => ([msgL3005 e], l)
    | .ok u =>
      let origin := u.scheme ++ "://".data ++ u.host
      let m1 := match mapGet l.PreviousOrigins origin with
                | some loc => [msgL2002 loc]
                | none => []
      match mapGet l.State.StanzaOrigins origin with
      | some loc =>
        (m1 ++ (if l.Origins then [msgL2005 loc] else []), l)
      | none =>
        (m1, { l with State :=
                 { l.State with StanzaOrigins := mapSet l.State.StanzaOrigins origin loc } })

/-- ProcessDomainAndDomainJavaScript of linter.go. -/
def ProcessDomainAndDomainJavaScript (p : Parse) (l : Linter) (line : Str) :
    List Str × Linter :=
  match p (TrimLabel line l.State.Label) with
  | .error e => ([msgL3005 e], l)
  | .ok u =>
    if u.scheme ≠ [] || goContainsChar u.path '/' then ([msgL3004], l)
    else ([], l)

/-- ProcessURL of linter.go. -/
def ProcessURL (p : Parse) (l : Linter) (line loc : Str) : List Str × Linter :=
  let allowedPreviousDirectives : List Directive :=
    [.AllowVars, .Description, .EBLSecret, .EbrarySite, .EncryptVar,
     .HTTPHeader, .MimeFilter, .Title]
  let m1 := if allowedPreviousDirectives.contains l.State.Previous then []
            else [msgL1002 l.State.Previous]
  let m2 := if l.State.Title = [] then [msgL1010] else []
  let m3 := if l.State.URL ≠ [] then [msgL2003] else []
  let urlFromLine := FindURLFromLine line
  let m4 := if urlFromLine = [] then [msgL3009] else []
  let l := { l with State := { l.State with URL := urlFromLine } }
  match p urlFromLine with
  | .error e => (m1 ++ m2 ++ m3 ++ m4 ++ [msgL3005 e], l)
  | .ok u =>
    if u.host = [] then (m1 ++ m2 ++ m3 ++ m4 ++ [msgL3006], l)
    else
      let m5 := if l.HTTPS && u.scheme ≠ "https".data then [msgL3007] else []
      let origin := u.scheme ++ "://".data ++ u.host
      let l := { l with State := { l.State with URLOrigin := origin, URLAt := loc } }
      let m6 := match mapGet l.PreviousOrigins origin with
                | some loc => [msgL2002 loc]
                | none => []
      (m1 ++ m2 ++ m3 ++ m4 ++ m5 ++ m6, l)

/-- Outcome of the label-extraction and classification block of
ProcessLineAt (the split, the two-token Option special case and the two
table lookups).  The wrongCase flag records that only the lowercase
fallback matched. -/
inductive ClassOut where
  | malformed
  | unknown (label : Str)
  | ok (label : Str) (d : Directive) (wrongCase : Bool)
deriving DecidableEq

/-- The label-extraction and classification block of ProcessLineAt,
verbatim from linter.go: split on spaces, take the first field as the
label, use the whole line when the first field is the word Option and
the line has exactly two fields (malformed otherwise), then the exact
lookup with the lowercase fallback.  Go indexes the split slice at zero;
an empty split would make that a panic, rendered here as none. -/
def classifyLine (line : Str) : Option ClassOut :=
  match goSplitSpace line with
  | [] => none
  | label :: _ =>
    let split := goSplitSpace line
    let step : Str → ClassOut := fun lbl =>
      match lookupLabel lbl with
      | some d => .ok lbl d false
      | none =>
        match lookupLowerLabel (goToLower lbl) with
        | some d => .ok lbl d true
        | none => .unknown lbl
    some <|
      if label = "Option".data then
        if split.length ≠ 2 then .malformed else step line
      else step label

/-- The condition of the defensive OptionCookie special case: no open
option of the stanza is waiting for an OptionCookie closer. -/
def noOpenOptionNeedsCookie (opts : List Directive) : Bool :=
  opts.all (fun v => !(optionPair v = .OptionCookie))

/-- The stanza-boundary block of ProcessLineAt (an empty or bare-#
line): the end-of-stanza diagnostics, the deferred origin flush into
PreviousOrigins, and the wholesale state reset. -/
def processBoundary (l : Linter) (m0 : List Str) : List Str × Linter :=
  let st := l.State
  let m1 := if st.Title ≠ [] && st.URL = [] && !st.IsSeparator then
              [msgL4003 st.Title] else []
  let m2 := if st.AddUserHeaderNeedsClosing then [msgL4005 st.Title] else []
  let m3 := if st.AnonymousURLNeedsClosing then [msgL4001 st.Title] else []
  let m4 := st.OpenOptions.map (fun option => msgL4002 st.Title option)
  let po := if st.URLOrigin ≠ [] then mapSet l.PreviousOrigins st.URLOrigin st.URLAt
            else l.PreviousOrigins
  let po := mapCopy po st.StanzaOrigins
  (m0 ++ m1 ++ m2 ++ m3 ++ m4,
   { l with State := { State.zero with LastLineEmpty := true },
            PreviousOrigins := po })

/-- The comment block of ProcessLineAt: a recognised Source comment is
handed to the external OCLC lookup when that check is enabled. -/
def processComment (fs : Fetch) (l : Linter) (m0 : List Str) (line : Str) :
    List Str × Linter :=
  if l.Source && goHasPfx "# Source - ".data line then
    match fs line with
    | .error e => (m0 ++ [msgL9003 e], l)
    | .ok st => (m0, { l with State :=
                         { l.State with Source := st.1, OCLCTitle := st.2 } })
  else (m0, l)

/-- The per-directive dispatch switch of ProcessLineAt. -/
def dispatchDirective (p : Parse) (l : Linter) (line loc : Str) :
    Directive → List Str × Linter
  | .ProxyHostnameEdit => ProcessProxyHostnameEdit l line
  | .AddUserHeader => ProcessAddUserHeader l line
  | .AnonymousURL => ProcessAnonymousURL l line
  | .Title => ProcessTitle l line loc
  | .Description => ProcessDescription l line loc
  | .URL => ProcessURL p l line loc
  | .Host => ProcessHostAndHostJavaScript p l line loc
  | .HostJavaScript => ProcessHostAndHostJavaScript p l line loc
  | .Domain => ProcessDomainAndDomainJavaScript p l line
  | .DomainJavaScript => ProcessDomainAndDomainJavaScript p l line
  | _ => ([], l)

/-- The option opener/closer handling of the classified block. -/
def processOptionPhase (l : Linter) (d : Directive) : List Str × Linter :=
  if openerOptions.contains d then ProcessOptionOpener l
  else if closerOptions.contains d then ProcessOptionCloser l
  else ([], l)

/-- The classified-directive block of ProcessLineAt: the optional
wrong-case diagnostic, recording Current and Label, the Find/Replace
short-circuit, the defensive early OptionCookie return, the option
opener/closer handling, the dispatch switch, and the Previous update. -/
def processDirective (p : Parse) (l : Linter) (m0 : List Str)
    (line loc lbl : Str) (d : Directive) (wc : Bool) : List Str × Linter :=
  let m1 := if wc && l.DirectiveCase then [msgL5001 lbl d] else []
  let l := { l with State := { l.State with Current := d, Label := lbl } }
  let m2 := if l.State.Previous = .Find && d ≠ .Replace then [msgL4004] else []
  if d = .OptionCookie && l.State.Title = [] &&
     noOpenOptionNeedsCookie l.State.OpenOptions then
    (m0 ++ m1 ++ m2, { l with State := { l.State with Previous := .OptionCookie } })
  else
    let pair := processOptionPhase l d
    let step := dispatchDirective p pair.2 line loc d
    (m0 ++ m1 ++ m2 ++ pair.1 ++ step.1,
     { step.2 with State := { step.2.State with Previous := d } })

/-- ProcessLineAt of linter.go, one call of the stanza processor: the
raw line and its location go in, the diagnostics and the updated Linter
come out.  The method body is split at its natural sections into the
block functions above.  The nil-map initialisations of the Go method
are identities here (association lists start empty), and a Go panic is
none. -/
def ProcessLineAt (p : Parse) (fs : Fetch) (l : Linter) (line loc : Str) :
    Option (List Str × Linter) :=
  let m0 := if l.Whitespace && TrailingSpaceOrTabCheck line then [msgL5002] else []
  let line := goTrimSpace line
  if line = [] || line = "#".data then some (processBoundary l m0)
  else
    let l := { l with State := { l.State with LastLineEmpty := false } }
    if goHasPfx "#".data line then some (processComment fs l m0 line)
    else if goHasSfx "\x5c".data line then
      some (m0, { l with State :=
        { l.State with
            PreviousMultilineSegments :=
              l.State.PreviousMultilineSegments ++ goTrimSfx "\x5c".data line,
            InMultiline := true } })
    else
      let line := if l.State.InMultiline then
                    l.State.PreviousMultilineSegments ++ line
                  else line
      let l := if l.State.InMultiline then
                 { l with State := { l.State with PreviousMultilineSegments := [] } }
               else l
      let l := { l with State := { l.State with IsSeparator := false } }
      match classifyLine line with
      | none => none
      | some .malformed => some (m0 ++ [msgL3008], l)
      | some (.unknown lbl) => some (m0 ++ [msgL9001 lbl], l)
      | some (.ok lbl directive wrongCase) =>
        some (processDirective p l m0 line loc lbl directive wrongCase)

/-- Sequential processing of a list of lines with their locations:
ProcessLineAt once per line, accumulating the per-line diagnostic
lists. -/
def runLines (p : Parse) (fs : Fetch) (l : Linter) :
    List (Str × Str) → Option (List (List Str) × Linter)
  | [] => some ([], l)
  | x :: xs =>
    (ProcessLineAt p fs l x.1 x.2).bind fun r =>
      (runLines p fs r.2 xs).map fun rest => (r.1 :: rest.1, rest.2)

/-! Basic lemmas about the embedded string operations. -/

/-- A token: a nonempty string free of whitespace characters. -/
def tokenB (s : Str) : Bool := !s.isEmpty && s.all (fun c => !goIsSpace c)

theorem tokenB_ne_nil {s : Str} (h : tokenB s = true) : s ≠ [] := by
  rcases s with _ | _ <;> simp_all [tokenB]

theorem tokenB_no_space {s : Str} (h : tokenB s = true) {c : Char} (hc : c ∈ s) :
    goIsSpace c = false := by
  simp [tokenB, List.all_eq_true] at h
  simpa using h.2 c hc

theorem tokenB_no_space_char {s : Str} (h : tokenB s = true) {c : Char} (hc : c ∈ s) :
    c ≠ ' ' := by
  intro he; subst he
  simpa [goIsSpace] using tokenB_no_space h hc

theorem goSplitSpace_ne_nil (s : Str) : goSplitSpace s ≠ [] := by
  induction s with
  | nil => simp [goSplitSpace]
  | cons c cs ih =>
    simp only [goSplitSpace]
    split
    · simp
    · split <;> simp_all

theorem goSplitSpace_no_space {s : Str} (h : ∀ c ∈ s, c ≠ ' ') :
    goSplitSpace s = [s] := by
  induction s with
  | nil => simp [goSplitSpace]
  | cons c cs ih =>
    have hc : c ≠ ' ' := h c (by simp)
    have ih' := ih (fun x hx => h x (by simp [hx]))
    simp [goSplitSpace, hc, ih']

theorem goSplitSpace_token_append {a b : Str} (h : ∀ c ∈ a, c ≠ ' ') :
    goSplitSpace (a ++ ' ' :: b) = a :: goSplitSpace b := by
  induction a with
  | nil => simp [goSplitSpace]
  | cons c cs ih =>
    have hc : c ≠ ' ' := h c (by simp)
    have ih' := ih (fun x hx => h x (by simp [hx]))
    simp [goSplitSpace, hc, ih']

theorem goTrimLeft_cons_of {c : Char} {s : Str} (h : goIsSpace c = false) :
    goTrimLeft (c :: s) = c :: s := by
  simp [goTrimLeft, List.dropWhile_cons, h]

theorem goTrimLeft_cons_space (s : Str) : goTrimLeft (' ' :: s) = goTrimLeft s := by
  simp [goTrimLeft, List.dropWhile_cons, goIsSpace]

theorem goTrimRight_append_token {a v : Str} (hv : tokenB v = true) :
    goTrimRight (a ++ v) = a ++ v := by
  have hne : v ≠ [] := tokenB_ne_nil hv
  rcases he : v.reverse with _ | ⟨d, w⟩
  · exact absurd (by simpa using congrArg List.reverse he) hne
  · have hd : d ∈ v := by
      have : d ∈ v.reverse := by simp [he]
      simpa using this
    have hds : goIsSpace d = false := tokenB_no_space hv hd
    have hv' : v = w.reverse ++ [d] := by
      have h2 := congrArg List.reverse he
      simpa using h2
    calc goTrimRight (a ++ v)
        = ((d :: (w ++ a.reverse)).dropWhile goIsSpace).reverse := by
          simp [goTrimRight, List.reverse_append, he]
      _ = (d :: (w ++ a.reverse)).reverse := by
          rw [List.dropWhile_cons]; simp [hds]
      _ = a ++ v := by simp [hv']

theorem goTrimRight_token {v : Str} (hv : tokenB v = true) : goTrimRight v = v := by
  simpa using goTrimRight_append_token (a := []) hv

theorem goTrimSpace_two_tokens {f r : Str} (hf : tokenB f = true)
    (hr : tokenB r = true) : goTrimSpace (f ++ ' ' :: r) = f ++ ' ' :: r := by
  rcases f with _ | ⟨c, s⟩
  · exact absurd hf (by decide)
  · have hc : goIsSpace c = false := tokenB_no_space hf (by simp)
    have htr : goTrimRight ((c :: s ++ [' ']) ++ r) = (c :: s ++ [' ']) ++ r :=
      goTrimRight_append_token hr
    simp only [goTrimSpace, List.cons_append, goTrimLeft_cons_of hc]
    calc goTrimRight (c :: s ++ ' ' :: r)
        = goTrimRight ((c :: s ++ [' ']) ++ r) := by simp
      _ = (c :: s ++ [' ']) ++ r := htr
      _ = c :: s ++ ' ' :: r := by simp

theorem goTrimSpace_token {v : Str} (hv : tokenB v = true) : goTrimSpace v = v := by
  rcases v with _ | ⟨c, s⟩
  · exact absurd hv (by decide)
  · have hc : goIsSpace c = false := tokenB_no_space hv (by simp)
    simp [goTrimSpace, goTrimLeft_cons_of hc, goTrimRight_token hv]

theorem goHasPfx_append (p s : Str) : goHasPfx p (p ++ s) = true := by
  simp [goHasPfx, List.isPrefixOf_iff_prefix]

theorem goTrimPfx_append (p s : Str) : goTrimPfx p (p ++ s) = s := by
  simp [goTrimPfx, goHasPfx_append, List.drop_left]

/-- TrimLabel on a line of the form label-space-payload gives the
trimmed payload. -/
theorem TrimLabel_append (lbl payload : Str) :
    TrimLabel (lbl ++ ' ' :: payload) lbl = goTrimSpace payload := by
  have h : goTrimPfx lbl (lbl ++ ' ' :: payload) = ' ' :: payload :=
    goTrimPfx_append lbl (' ' :: payload)
  simp only [TrimLabel, h, goTrimSpace, goTrimLeft_cons_space]

/-! Every diagnostic carries its stable code; messages from different
checks are therefore never equal.  The lemmas below extract the code as
a suffix and derive the inequalities. -/

theorem suffix_eq_of_length {m s1 s2 : Str} (h1 : s1 <:+ m) (h2 : s2 <:+ m)
    (hl : s1.length = s2.length) : s1 = s2 := by
  obtain ⟨a, ha⟩ := h1
  obtain ⟨b, hb⟩ := h2
  exact (List.append_inj' (ha.trans hb.symm) hl).2

theorem msg_ne_of_code {m1 m2 : Str} {c1 c2 : String}
    (h1 : c1.data <:+ m1) (h2 : c2.data <:+ m2)
    (hl : c1.data.length = c2.data.length) (hne : c1 ≠ c2) : m1 ≠ m2 := by
  intro he
  subst he
  exact hne (congrArg String.mk (suffix_eq_of_length h1 h2 hl))

theorem sfxOfLit {lit : Str} {c : String} (h : c.data <:+ lit) (a : Str) :
    c.data <:+ a ++ lit :=
  h.trans (List.suffix_append a lit)

/-! Code-suffix lemmas: each diagnostic ends in its stable code. -/

/-- Code suffix of msgL5002. -/
theorem code_msgL5002 : "(L5002)".data <:+ msgL5002 := by decide

/-- Code suffix of msgL3008. -/
theorem code_msgL3008 : "(L3008)".data <:+ msgL3008 := by decide

/-- Code suffix of msgL4004. -/
theorem code_msgL4004 : "(L4004)".data <:+ msgL4004 := by decide

/-- Code suffix of msgL3001. -/
theorem code_msgL3001 : "(L3001)".data <:+ msgL3001 := by decide

/-- Code suffix of msgL3002. -/
theorem code_msgL3002 : "(L3002)".data <:+ msgL3002 := by decide

/-- Code suffix of msgL3003. -/
theorem code_msgL3003 : "(L3003)".data <:+ msgL3003 := by decide

/-- Code suffix of msgL2001. -/
theorem code_msgL2001 : "(L2001)".data <:+ msgL2001 := by decide

/-- Code suffix of msgL9002. -/
theorem code_msgL9002 : "(L9002)".data <:+ msgL9002 := by decide

/-- Code suffix of msgL3004. -/
theorem code_msgL3004 : "(L3004)".data <:+ msgL3004 := by decide

/-- Code suffix of msgL1010. -/
theorem code_msgL1010 : "(L1010)".data <:+ msgL1010 := by decide

/-- Code suffix of msgL2003. -/
theorem code_msgL2003 : "(L2003)".data <:+ msgL2003 := by decide

/-- Code suffix of msgL3009. -/
theorem code_msgL3009 : "(L3009)".data <:+ msgL3009 := by decide

/-- Code suffix of msgL3006. -/
theorem code_msgL3006 : "(L3006)".data <:+ msgL3006 := by decide

/-- Code suffix of msgL3007. -/
theorem code_msgL3007 : "(L3007)".data <:+ msgL3007 := by decide

/-- Code suffix of msgL4003. -/
theorem code_msgL4003 (t : Str) : "(L4003)".data <:+ msgL4003 t := by
  unfold msgL4003
  exact sfxOfLit (by decide) _

/-- Code suffix of msgL4005. -/
theorem code_msgL4005 (t : Str) : "(L4005)".data <:+ msgL4005 t := by
  unfold msgL4005
  exact sfxOfLit (by decide) _

/-- Code suffix of msgL4001. -/
theorem code_msgL4001 (t : Str) : "(L4001)".data <:+ msgL4001 t := by
  unfold msgL4001
  exact sfxOfLit (by decide) _

/-- Code suffix of msgL4002. -/
theorem code_msgL4002 (t : Str) (o : Directive) : "(L4002)".data <:+ msgL4002 t o := by
  unfold msgL4002
  exact sfxOfLit (by decide) _

/-- Code suffix of msgL9001. -/
theorem code_msgL9001 (lbl : Str) : "(L9001)".data <:+ msgL9001 lbl := by
  unfold msgL9001
  exact sfxOfLit (by decide) _

/-- Code suffix of msgL5001. -/
theorem code_msgL5001 (lbl : Str) (d : Directive) : "(L5001)".data <:+ msgL5001 lbl d := by
  unfold msgL5001
  exact sfxOfLit (by decide) _

/-- Code suffix of msgL1005. -/
theorem code_msgL1005 (c p : Directive) : "(L1005)".data <:+ msgL1005 c p := by
  unfold msgL1005
  exact sfxOfLit (by decide) _

/-- Code suffix of msgL1006. -/
theorem code_msgL1006 (c p : Directive) : "(L1006)".data <:+ msgL1006 c p := by
  unfold msgL1006
  exact sfxOfLit (by decide) _

/-- Code suffix of msgL1008. -/
theorem code_msgL1008 (p : Directive) : "(L1008)".data <:+ msgL1008 p := by
  unfold msgL1008
  exact sfxOfLit (by decide) _

/-- Code suffix of msgL1009. -/
theorem code_msgL1009 (pat : Str) : "(L1009)".data <:+ msgL1009 pat := by
  unfold msgL1009
  exact sfxOfLit (by decide) _

/-- Code suffix of msgL1011. -/
theorem code_msgL1011 (p : Directive) : "(L1011)".data <:+ msgL1011 p := by
  unfold msgL1011
  exact sfxOfLit (by decide) _

/-- Code suffix of msgL1012. -/
theorem code_msgL1012 (p : Directive) : "(L1012)".data <:+ msgL1012 p := by
  unfold msgL1012
  exact sfxOfLit (by decide) _

/-- Code suffix of msgL1003. -/
theorem code_msgL1003 (p : Directive) : "(L1003)".data <:+ msgL1003 p := by
  unfold msgL1003
  exact sfxOfLit (by decide) _

/-- Code suffix of msgL1004. -/
theorem code_msgL1004 (p : Directive) : "(L1004)".data <:+ msgL1004 p := by
  unfold msgL1004
  exact sfxOfLit (by decide) _

/-- Code suffix of msgL1001. -/
theorem code_msgL1001 (p : Directive) : "(L1001)".data <:+ msgL1001 p := by
  unfold msgL1001
  exact sfxOfLit (by decide) _

/-- Code suffix of msgL2004. -/
theorem code_msgL2004 (loc : Str) : "(L2004)".data <:+ msgL2004 loc := by
  unfold msgL2004
  exact sfxOfLit (by decide) _

/-- Code suffix of msgL1013. -/
theorem code_msgL1013 (p : Directive) : "(L1013)".data <:+ msgL1013 p := by
  unfold msgL1013
  exact sfxOfLit (by decide) _

/-- Code suffix of msgL3005. -/
theorem code_msgL3005 (e : Str) : "(L3005)".data <:+ msgL3005 e := by
  unfold msgL3005
  exact sfxOfLit (by decide) _

/-- Code suffix of msgL2002. -/
theorem code_msgL2002 (loc : Str) : "(L2002)".data <:+ msgL2002 loc := by
  unfold msgL2002
  exact sfxOfLit (by decide) _

/-- Code suffix of msgL2005. -/
theorem code_msgL2005 (loc : Str) : "(L2005)".data <:+ msgL2005 loc := by
  unfold msgL2005
  exact sfxOfLit (by decide) _

/-- Code suffix of msgL1002. -/
theorem code_msgL1002 (p : Directive) : "(L1002)".data <:+ msgL1002 p := by
  unfold msgL1002
  exact sfxOfLit (by decide) _

/-- The L9003 text starts with a fixed prefix, whatever the error. -/
theorem head_msgL9003 (e : Str) : (msgL9003 e).head? = some 'E' := rfl

theorem classifyLine_isSome (line : Str) : (classifyLine line).isSome := by
  unfold classifyLine
  rcases h : goSplitSpace line with _ | ⟨l0, rest⟩
  · exact absurd h (goSplitSpace_ne_nil line)
  · simp

theorem classifyLine_ne_none (line : Str) : classifyLine line ≠ none := by
  have h := classifyLine_isSome line
  simpa [Option.isSome_iff_ne_none] using h

theorem processLineAt_isSome (p : Parse) (fs : Fetch) (l : Linter)
    (line loc : Str) : (ProcessLineAt p fs l line loc).isSome := by
  unfold ProcessLineAt
  repeat' split <;> try simp
  all_goals exact absurd (by assumption) (classifyLine_ne_none _)

/-! The Source configuration flag of the Linter is never written by the
processor, so the OCLC collaborator stays unreachable once disabled. -/

theorem ProcessOptionOpener_source (l : Linter) :
    (ProcessOptionOpener l).2.Source = l.Source := rfl

theorem ProcessOptionCloser_source (l : Linter) :
    (ProcessOptionCloser l).2.Source = l.Source := rfl

theorem ProcessProxyHostnameEdit_source (l : Linter) (line : Str) :
    (ProcessProxyHostnameEdit l line).2.Source = l.Source := by
  unfold ProcessProxyHostnameEdit
  try dsimp only
  (repeat' split) <;> rfl

theorem ProcessAddUserHeader_source (l : Linter) (line : Str) :
    (ProcessAddUserHeader l line).2.Source = l.Source := by
  unfold ProcessAddUserHeader
  try dsimp only
  (repeat' split) <;> rfl

theorem ProcessAnonymousURL_source (l : Linter) (line : Str) :
    (ProcessAnonymousURL l line).2.Source = l.Source := by
  unfold ProcessAnonymousURL
  try dsimp only
  (repeat' split) <;> rfl

theorem ProcessTitle_source (l : Linter) (line loc : Str) :
    (ProcessTitle l line loc).2.Source = l.Source := rfl

theorem ProcessDescription_source (l : Linter) (line loc : Str) :
    (ProcessDescription l line loc).2.Source = l.Source := rfl

theorem ProcessHostAndHostJavaScript_source (p : Parse) (l : Linter)
    (line loc : Str) :
    (ProcessHostAndHostJavaScript p l line loc).2.Source = l.Source := by
  unfold ProcessHostAndHostJavaScript
  try dsimp only
  (repeat' split) <;> rfl

theorem ProcessDomainAndDomainJavaScript_source (p : Parse) (l : Linter)
    (line : Str) :
    (ProcessDomainAndDomainJavaScript p l line).2.Source = l.Source := by
  unfold ProcessDomainAndDomainJavaScript
  try dsimp only
  (repeat' split) <;> rfl

theorem ProcessURL_source (p : Parse) (l : Linter) (line loc : Str) :
    (ProcessURL p l line loc).2.Source = l.Source := by
  unfold ProcessURL
  try dsimp only
  (repeat' split) <;> rfl

theorem dispatchDirective_source (p : Parse) (l : Linter) (line loc : Str)
    (d : Directive) : (dispatchDirective p l line loc d).2.Source = l.Source := by
  unfold dispatchDirective
  split <;>
    simp [ProcessProxyHostnameEdit_source, ProcessAddUserHeader_source,
      ProcessAnonymousURL_source, ProcessTitle_source, ProcessDescription_source,
      ProcessURL_source, ProcessHostAndHostJavaScript_source,
      ProcessDomainAndDomainJavaScript_source]

theorem processDirective_source (p : Parse) (l : Linter) (m0 : List Str)
    (line loc lbl : Str) (d : Directive) (wc : Bool) :
    (processDirective p l m0 line loc lbl d wc).2.Source = l.Source := by
  unfold processDirective processOptionPhase
  dsimp only
  (repeat' split) <;>
    first
    | rfl
    | simp [dispatchDirective_source, ProcessOptionOpener_source,
        ProcessOptionCloser_source]

theorem processBoundary_source (l : Linter) (m0 : List Str) :
    (processBoundary l m0).2.Source = l.Source := rfl

theorem processComment_source (fs : Fetch) (l : Linter) (m0 : List Str)
    (line : Str) : (processComment fs l m0 line).2.Source = l.Source := by
  unfold processComment
  (repeat' split) <;> rfl

theorem processLineAt_source (p : Parse) (fs : Fetch) (l : Linter)
    (line loc : Str) {ms : List Str} {l' : Linter}
    (h : ProcessLineAt p fs l line loc = some (ms, l')) : l'.Source = l.Source := by
  unfold ProcessLineAt at h
  dsimp only at h
  repeat' split at h
  all_goals
    first
    | (have h2 : _ = l' := congrArg Prod.snd (Option.some.inj h)
       rw [← h2]
       all_goals
         first
         | exact processBoundary_source ..
         | exact processComment_source ..
         | exact processDirective_source ..
         | rfl)
    | exact absurd h (by simp)

theorem processComment_fetch_free {fs fs' : Fetch} {l : Linter}
    {m0 : List Str} {line : Str} (hs : l.Source = false) :
    processComment fs l m0 line = processComment fs' l m0 line := by
  unfold processComment
  simp [hs]

theorem processLineAt_fetch_free (p : Parse) (fs fs' : Fetch) (l : Linter)
    (line loc : Str) (hs : l.Source = false) :
    ProcessLineAt p fs l line loc = ProcessLineAt p fs' l line loc := by
  unfold ProcessLineAt
  dsimp only
  repeat' split
  all_goals first
    | rfl
    | exact congrArg some (processComment_fetch_free hs)

theorem runLines_isSome (p : Parse) (fs : Fetch) (l : Linter)
    (lines : List (Str × Str)) : (runLines p fs l lines).isSome := by
  induction lines generalizing l with
  | nil => simp [runLines]
  | cons x xs ih =>
    have h1 := processLineAt_isSome p fs l x.1 x.2
    rcases heq : ProcessLineAt p fs l x.1 x.2 with _ | ⟨ms, l2⟩
    · rw [heq] at h1; simp at h1
    · have h2 := ih l2
      rcases heq2 : runLines p fs l2 xs with _ | r
      · rw [heq2] at h2; simp at h2
      · simp [runLines, heq, heq2]

/-- Locates the scheme separator of a URL text. -/
def breakScheme : Str → Option (Str × Str)
  | [] => none
  | ':' :: '/' :: '/' :: rest => some ([], rest)
  | c :: rest => (breakScheme rest).map (fun x => (c :: x.1, x.2))

/-- A sample external URL parser used only to evaluate theorems at
concrete inputs: splits scheme://host/path and never fails. -/
def simpleParse : Parse := fun s =>
  match breakScheme s with
  | none => .ok ⟨[], [], s⟩
  | some (sch, rest) =>
    .ok ⟨sch, rest.takeWhile (fun c => c ≠ '/'), rest.dropWhile (fun c => c ≠ '/')⟩

/-- A sample OCLC lookup that always fails, used only to evaluate
theorems at concrete inputs. -/
def simpleFetch : Fetch := fun _ => .error "no network".data

/-- A second sample OCLC lookup, used to exercise the independence of
the processor from the lookup when the Source check is off. -/
def simpleFetchOk : Fetch := fun _ => .ok ([], [])

/-- C8: with the Source/OCLC check disabled, ProcessLineAt is total and
non-aborting on every line and location: it always returns a (possibly
empty) list of diagnostic strings, its result does not depend on the
external lookup collaborator, and processing can always continue with
further lines (running the whole list also returns normally). -/
theorem claim_C8_total_nonaborting (p : Parse) (fs fs' : Fetch) (l : Linter)
    (line loc : Str) (lines : List (Str × Str)) (hs : l.Source = false) :
    (ProcessLineAt p fs l line loc).isSome ∧
    ProcessLineAt p fs l line loc = ProcessLineAt p fs' l line loc ∧
    (runLines p fs l ((line, loc) :: lines)).isSome :=
  ⟨processLineAt_isSome p fs l line loc,
   processLineAt_fetch_free p fs fs' l line loc hs,
   runLines_isSome p fs l ((line, loc) :: lines)⟩

/-- Witness for C8 at a concrete input. -/
theorem claim_C8_total_nonaborting_witness :
    Linter.zero.Source = false ∧
    ((ProcessLineAt simpleParse simpleFetch Linter.zero
        ("Title X").data ("cfg:1").data).isSome ∧
     ProcessLineAt simpleParse simpleFetch Linter.zero
        ("Title X").data ("cfg:1").data =
       ProcessLineAt simpleParse simpleFetchOk Linter.zero
        ("Title X").data ("cfg:1").data ∧
     (runLines simpleParse simpleFetch Linter.zero
        [(("Title X").data, ("cfg:1").data), (("URL x").data, ("cfg:2").data)]).isSome) :=
  ⟨rfl, claim_C8_total_nonaborting simpleParse simpleFetch simpleFetchOk Linter.zero
    ("Title X").data ("cfg:1").data [(("URL x").data, ("cfg:2").data)] rfl⟩

/-- A line in trimmed form that is not a stanza boundary, not a comment
and not a continuation reaches label extraction; the call is then the
classification followed by the classified-directive block. -/
theorem processLineAt_classify_step (p : Parse) (fs : Fetch) (l : Linter)
    (line loc : Str) (hm : l.State.InMultiline = false)
    (htrim : goTrimSpace line = line) (hne : line ≠ [])
    (hne2 : line ≠ "#".data) (hcmt : goHasPfx "#".data line = false)
    (hbs : goHasSfx "\x5c".data line = false) :
    ProcessLineAt p fs l line loc =
      (classifyLine line).map (fun co =>
        let m0 := if l.Whitespace && TrailingSpaceOrTabCheck line then [msgL5002]
                  else []
        let l2 : Linter :=
          { l with State :=
              { l.State with LastLineEmpty := false, IsSeparator := false } }
        match co with
        | .malformed => (m0 ++ [msgL3008], l2)
        | .unknown lbl => (m0 ++ [msgL9001 lbl], l2)
        | .ok lbl d wc => processDirective p l2 m0 line loc lbl d wc) := by
  unfold ProcessLineAt
  dsimp only
  rw [htrim]
  rw [if_neg (by simp [hne, hne2])]
  rw [if_neg (by simp [hcmt])]
  rw [if_neg (by simp [hbs])]
  simp only [hm]
  rcases hcl : classifyLine line with _ | co
  · simp [hcl]
  · cases co <;> simp [hcl]

theorem classifyLine_of_split {line lbl : Str} {rest : List Str}
    (h : goSplitSpace line = lbl :: rest) (hno : lbl ≠ "Option".data) :
    classifyLine line = some (
      match lookupLabel lbl with
      | some d => .ok lbl d false
      | none =>
        match lookupLowerLabel (goToLower lbl) with
        | some d => .ok lbl d true
        | none => .unknown lbl) := by
  unfold classifyLine
  rw [h]
  simp [hno]

theorem classifyLine_option_bad {line : Str} {rest : List Str}
    (h : goSplitSpace line = "Option".data :: rest)
    (hlen : (goSplitSpace line).length ≠ 2) :
    classifyLine line = some .malformed := by
  unfold classifyLine
  rw [h]
  rw [h] at hlen
  simp at hlen
  simp [hlen]

theorem classifyLine_option_two {line t2 : Str}
    (h : goSplitSpace line = ["Option".data, t2]) :
    classifyLine line = some (
      match lookupLabel line with
      | some d => .ok line d false
      | none =>
        match lookupLowerLabel (goToLower line) with
        | some d => .ok line d true
        | none => .unknown line) := by
  unfold classifyLine
  rw [h]
  simp

theorem ProcessAnonymousURL_fence (l : Linter) (line : Str) :
    ((ProcessAnonymousURL l line).2.State.AnonymousURLNeedsClosing = true ↔
      TrimLabel line l.State.Label ≠ "-*".data) ∧
    (ProcessAnonymousURL l line).2.State.Previous = l.State.Previous := by
  unfold ProcessAnonymousURL
  dsimp only
  split
  · next hc => simp [hc]
  · next hc => simp [hc]

/-- For a directive that is not OptionCookie and neither an opener nor
a closer option, the classified-directive block is the dispatch switch
followed by the Previous update. -/
theorem processDirective_plain (p : Parse) (l : Linter) (m0 : List Str)
    (line loc lbl : Str) (d : Directive) (wc : Bool)
    (hoc : d ≠ .OptionCookie)
    (hop : openerOptions.contains d = false)
    (hcls : closerOptions.contains d = false) :
    processDirective p l m0 line loc lbl d wc =
      (let m1 := if wc && l.DirectiveCase then [msgL5001 lbl d] else []
       let l2 : Linter :=
         { l with State := { l.State with Current := d, Label := lbl } }
       let m2 := if l2.State.Previous = .Find && d ≠ .Replace then [msgL4004]
                 else []
       let step := dispatchDirective p l2 line loc d
       (m0 ++ m1 ++ m2 ++ [] ++ step.1,
        { step.2 with State := { step.2.State with Previous := d } })) := by
  unfold processDirective processOptionPhase
  dsimp only
  split_ifs <;> first | rfl | simp_all

/-- C2: every line ProcessLineAt classifies as AnonymousURL sets the
fence flag AnonymousURLNeedsClosing to false exactly when its payload
is -* and to true for any other payload, and in both cases sets
previousDirective to AnonymousURL, whether or not an out-of-order
diagnostic was emitted for the line. -/
theorem claim_C2_anonymousurl_fence (p : Parse) (fs : Fetch) (l : Linter)
    (line loc lbl : Str) (wc : Bool)
    (hm : l.State.InMultiline = false) (htrim : goTrimSpace line = line)
    (hne : line ≠ []) (hne2 : line ≠ "#".data)
    (hcmt : goHasPfx "#".data line = false)
    (hbs : goHasSfx "\x5c".data line = false)
    (hcl : classifyLine line = some (.ok lbl .AnonymousURL wc))
    {ms : List Str} {l' : Linter}
    (hrun : ProcessLineAt p fs l line loc = some (ms, l')) :
    (l'.State.AnonymousURLNeedsClosing = true ↔ TrimLabel line lbl ≠ "-*".data) ∧
    l'.State.Previous = .AnonymousURL := by
  rw [processLineAt_classify_step p fs l line loc hm htrim hne hne2 hcmt hbs,
    hcl] at hrun
  simp only [Option.map_some'] at hrun
  have h2 : _ = l' := congrArg Prod.snd (Option.some.inj hrun)
  rw [← h2]
  rw [processDirective_plain p _ _ line loc lbl _ wc (by decide) (by decide)
    (by decide)]
  dsimp only [dispatchDirective]
  constructor
  · exact (ProcessAnonymousURL_fence _ line).1
  · rfl

/-- Concrete AnonymousURL line for evaluating the C2 theorem. -/
def c2Line : Str := ("AnonymousURL x").data

/-- Result of processing the concrete AnonymousURL line from a fresh
linter. -/
def c2Res : List Str × Linter :=
  (ProcessLineAt simpleParse simpleFetch Linter.zero c2Line ("f:1").data).getD
    ([], Linter.zero)

/-- Witness for C2 at a concrete input. -/
theorem claim_C2_anonymousurl_fence_witness :
    (c2Res.2.State.AnonymousURLNeedsClosing = true ↔
      TrimLabel c2Line ("AnonymousURL").data ≠ "-*".data) ∧
    c2Res.2.State.Previous = .AnonymousURL := by
  have hrun : ProcessLineAt simpleParse simpleFetch Linter.zero c2Line
      ("f:1").data = some (c2Res.1, c2Res.2) := rfl
  exact claim_C2_anonymousurl_fence simpleParse simpleFetch Linter.zero c2Line
    ("f:1").data ("AnonymousURL").data false rfl rfl (by decide) (by decide)
    (by decide) (by decide) (by decide) hrun

theorem closer_cases {c : Directive} (hc : closerOptions.contains c = true) :
    c = .OptionCookie ∨ c = .OptionNoHideEZproxy ∨ c = .OptionHttpsHyphens ∨
    c = .OptionNoMetaEZproxyRewriting ∨ c = .OptionNoProxyFTP ∨
    c = .OptionNoUTF16 ∨ c = .OptionNoXForwardedFor := by
  simp [closerOptions, optionPairsList] at hc
  tauto

theorem closer_not_opener {c : Directive} (hc : closerOptions.contains c = true) :
    openerOptions.contains c = false := by
  rcases closer_cases hc with h | h | h | h | h | h | h <;> subst h <;> decide

theorem closer_dispatch_id (p : Parse) (l : Linter) (line loc : Str)
    {c : Directive} (hc : closerOptions.contains c = true) :
    dispatchDirective p l line loc c = ([], l) := by
  rcases closer_cases hc with h | h | h | h | h | h | h <;> subst h <;> rfl

/-- The defensive early-OptionCookie return of the classified block. -/
theorem processDirective_early (p : Parse) (l : Linter) (m0 : List Str)
    (line loc lbl : Str) (wc : Bool)
    (hT : l.State.Title = [])
    (hN : noOpenOptionNeedsCookie l.State.OpenOptions = true) :
    processDirective p l m0 line loc lbl .OptionCookie wc =
      (let m1 := if wc && l.DirectiveCase then [msgL5001 lbl .OptionCookie]
                 else []
       let l2 : Linter :=
         { l with State :=
             { l.State with Current := .OptionCookie, Label := lbl } }
       let m2 := if l2.State.Previous = .Find then [msgL4004] else []
       (m0 ++ m1 ++ m2,
        { l2 with State := { l2.State with Previous := .OptionCookie } })) := by
  unfold processDirective
  dsimp only
  split_ifs <;> first | rfl | simp_all

/-- The classified block for a closer option outside the defensive
early return: the out-of-order check plus the table-driven removal. -/
theorem processDirective_closer (p : Parse) (l : Linter) (m0 : List Str)
    (line loc lbl : Str) (c : Directive) (wc : Bool)
    (hearly : ¬(c = .OptionCookie ∧ l.State.Title = [] ∧
      noOpenOptionNeedsCookie l.State.OpenOptions = true))
    (hcls : closerOptions.contains c = true) :
    processDirective p l m0 line loc lbl c wc =
      (let m1 := if wc && l.DirectiveCase then [msgL5001 lbl c] else []
       let l2 : Linter :=
         { l with State := { l.State with Current := c, Label := lbl } }
       let m2 := if l2.State.Previous = .Find && c ≠ .Replace then [msgL4004]
                 else []
       let pr := ProcessOptionCloser l2
       (m0 ++ m1 ++ m2 ++ pr.1 ++ [],
        { pr.2 with State := { pr.2.State with Previous := c } })) := by
  have hop := closer_not_opener hcls
  have hdisp := closer_dispatch_id p (ProcessOptionCloser
    { l with State := { l.State with Current := c, Label := lbl } }).2 line loc hcls
  unfold processDirective processOptionPhase
  dsimp only
  split_ifs <;> first | (rw [hdisp]) | simp_all

/-- C3: for every stanza state and every line classified as a closer
option, processing removes from openOptions exactly the entries whose
paired closer (by the OptionPairs table, not identity) is that
directive, leaving every other entry in place and in order; this also
holds through the defensive early-OptionCookie return, which fires only
when nothing pairs to OptionCookie. -/
theorem claim_C3_closer_removes_by_table (p : Parse) (fs : Fetch) (l : Linter)
    (line loc lbl : Str) (c : Directive) (wc : Bool)
    (hm : l.State.InMultiline = false) (htrim : goTrimSpace line = line)
    (hne : line ≠ []) (hne2 : line ≠ "#".data)
    (hcmt : goHasPfx "#".data line = false)
    (hbs : goHasSfx "\x5c".data line = false)
    (hcl : classifyLine line = some (.ok lbl c wc))
    (hc : closerOptions.contains c = true)
    {ms : List Str} {l' : Linter}
    (hrun : ProcessLineAt p fs l line loc = some (ms, l')) :
    l'.State.OpenOptions =
      l.State.OpenOptions.filter (fun d => !(optionPair d = c)) := by
  rw [processLineAt_classify_step p fs l line loc hm htrim hne hne2 hcmt hbs,
    hcl] at hrun
  simp only [Option.map_some'] at hrun
  have h2 : _ = l' := congrArg Prod.snd (Option.some.inj hrun)
  rw [← h2]
  by_cases hearly : c = .OptionCookie ∧ l.State.Title = [] ∧
      noOpenOptionNeedsCookie l.State.OpenOptions = true
  · obtain ⟨hcEq, hT, hN⟩ := hearly
    subst hcEq
    rw [processDirective_early p
      { l with State :=
          { l.State with LastLineEmpty := false, IsSeparator := false } }
      _ line loc lbl wc hT hN]
    dsimp only
    have hall : ∀ d ∈ l.State.OpenOptions,
        (!(optionPair d = Directive.OptionCookie)) = true := by
      simpa [noOpenOptionNeedsCookie, List.all_eq_true] using hN
    exact (List.filter_eq_self.mpr hall).symm
  · rw [processDirective_closer p
      { l with State :=
          { l.State with LastLineEmpty := false, IsSeparator := false } }
      _ line loc lbl c wc hearly hc]
    rfl

/-- A linter state with two open options for evaluating C3. -/
def c3Linter : Linter :=
  { Linter.zero with State :=
      { State.zero with
          Title := ("T").data,
          OpenOptions := [.OptionDomainCookieOnly, .OptionHideEZproxy] } }

/-- Concrete closer line for evaluating C3. -/
def c3Line : Str := ("Option Cookie").data

/-- Result of processing the closer line in the c3 state. -/
def c3Res : List Str × Linter :=
  (ProcessLineAt simpleParse simpleFetch c3Linter c3Line ("f:1").data).getD
    ([], Linter.zero)

/-- Witness for C3 at a concrete input: Option Cookie closes the open
Option DomainCookieOnly but leaves Option HideEZproxy in place. -/
theorem claim_C3_closer_removes_by_table_witness :
    c3Res.2.State.OpenOptions =
      c3Linter.State.OpenOptions.filter
        (fun d => !(optionPair d = .OptionCookie)) := by
  have hrun : ProcessLineAt simpleParse simpleFetch c3Linter c3Line
      ("f:1").data = some (c3Res.1, c3Res.2) := rfl
  exact claim_C3_closer_removes_by_table simpleParse simpleFetch c3Linter
    c3Line ("f:1").data c3Line .OptionCookie false rfl rfl (by decide)
    (by decide) (by decide) (by decide) (by decide) (by decide) hrun

/-! No per-directive processor writes the Label or Current fields; they
keep what the classification block recorded. -/

theorem ProcessOptionOpener_labcur (l : Linter) :
    (ProcessOptionOpener l).2.State.Label = l.State.Label ∧
    (ProcessOptionOpener l).2.State.Current = l.State.Current := ⟨rfl, rfl⟩

theorem ProcessOptionCloser_labcur (l : Linter) :
    (ProcessOptionCloser l).2.State.Label = l.State.Label ∧
    (ProcessOptionCloser l).2.State.Current = l.State.Current := ⟨rfl, rfl⟩

theorem ProcessProxyHostnameEdit_labcur (l : Linter) (line : Str) :
    (ProcessProxyHostnameEdit l line).2.State.Label = l.State.Label ∧
    (ProcessProxyHostnameEdit l line).2.State.Current = l.State.Current := by
  unfold ProcessProxyHostnameEdit
  try dsimp only
  (repeat' split) <;> exact ⟨rfl, rfl⟩

theorem ProcessAddUserHeader_labcur (l : Linter) (line : Str) :
    (ProcessAddUserHeader l line).2.State.Label = l.State.Label ∧
    (ProcessAddUserHeader l line).2.State.Current = l.State.Current := by
  unfold ProcessAddUserHeader
  try dsimp only
  (repeat' split) <;> exact ⟨rfl, rfl⟩

theorem ProcessAnonymousURL_labcur (l : Linter) (line : Str) :
    (ProcessAnonymousURL l line).2.State.Label = l.State.Label ∧
    (ProcessAnonymousURL l line).2.State.Current = l.State.Current := by
  unfold ProcessAnonymousURL
  try dsimp only
  (repeat' split) <;> exact ⟨rfl, rfl⟩

theorem ProcessTitle_labcur (l : Linter) (line loc : Str) :
    (ProcessTitle l line loc).2.State.Label = l.State.Label ∧
    (ProcessTitle l line loc).2.State.Current = l.State.Current := ⟨rfl, rfl⟩

theorem ProcessDescription_labcur (l : Linter) (line loc : Str) :
    (ProcessDescription l line loc).2.State.Label = l.State.Label ∧
    (ProcessDescription l line loc).2.State.Current = l.State.Current := ⟨rfl, rfl⟩

theorem ProcessHostAndHostJavaScript_labcur (p : Parse) (l : Linter)
    (line loc : Str) :
    (ProcessHostAndHostJavaScript p l line loc).2.State.Label = l.State.Label ∧
    (ProcessHostAndHostJavaScript p l line loc).2.State.Current
      = l.State.Current := by
  unfold ProcessHostAndHostJavaScript
  try dsimp only
  (repeat' split) <;> exact ⟨rfl, rfl⟩

theorem ProcessDomainAndDomainJavaScript_labcur (p : Parse) (l : Linter)
    (line : Str) :
    (ProcessDomainAndDomainJavaScript p l line).2.State.Label = l.State.Label ∧
    (ProcessDomainAndDomainJavaScript p l line).2.State.Current
      = l.State.Current := by
  unfold ProcessDomainAndDomainJavaScript
  try dsimp only
  (repeat' split) <;> exact ⟨rfl, rfl⟩

theorem ProcessURL_labcur (p : Parse) (l : Linter) (line loc : Str) :
    (ProcessURL p l line loc).2.State.Label = l.State.Label ∧
    (ProcessURL p l line loc).2.State.Current = l.State.Current := by
  unfold ProcessURL
  try dsimp only
  (repeat' split) <;> exact ⟨rfl, rfl⟩

theorem dispatchDirective_labcur (p : Parse) (l : Linter) (line loc : Str)
    (d : Directive) :
    (dispatchDirective p l line loc d).2.State.Label = l.State.Label ∧
    (dispatchDirective p l line loc d).2.State.Current = l.State.Current := by
  unfold dispatchDirective
  split
  · exact ProcessProxyHostnameEdit_labcur ..
  · exact ProcessAddUserHeader_labcur ..
  · exact ProcessAnonymousURL_labcur ..
  · exact ProcessTitle_labcur ..
  · exact ProcessDescription_labcur ..
  · exact ProcessURL_labcur ..
  · exact ProcessHostAndHostJavaScript_labcur ..
  · exact ProcessHostAndHostJavaScript_labcur ..
  · exact ProcessDomainAndDomainJavaScript_labcur ..
  · exact ProcessDomainAndDomainJavaScript_labcur ..
  · exact ⟨rfl, rfl⟩

/-- Label and Current through the option phase. -/
theorem processOptionPhase_labcur (l : Linter) (d : Directive) :
    (processOptionPhase l d).2.State.Label = l.State.Label ∧
    (processOptionPhase l d).2.State.Current = l.State.Current := by
  unfold processOptionPhase
  split
  · exact ProcessOptionOpener_labcur _
  · split
    · exact ProcessOptionCloser_labcur _
    · exact ⟨rfl, rfl⟩

/-- The classified block records the looked-up label and directive in
the Label and Current fields, and nothing downstream changes them. -/
theorem processDirective_labcur (p : Parse) (l : Linter) (m0 : List Str)
    (line loc lbl : Str) (d : Directive) (wc : Bool) :
    (processDirective p l m0 line loc lbl d wc).2.State.Label = lbl ∧
    (processDirective p l m0 line loc lbl d wc).2.State.Current = d := by
  unfold processDirective
  dsimp only
  split
  · exact ⟨rfl, rfl⟩
  · constructor
    · exact ((dispatchDirective_labcur ..).1).trans
        ((processOptionPhase_labcur ..).1)
    · exact ((dispatchDirective_labcur ..).2).trans
        ((processOptionPhase_labcur ..).2)

/-- C5: for every non-comment, non-empty line whose first split field is
exactly the word Option: with exactly two space-separated fields the
lookup key is the whole line (the two fields rejoined by the single
space), visible in the recorded Label/Current on success and in the
quoted label of the unknown-directive diagnostic on failure; with any
other field count the call emits the malformed-Option diagnostic, not
the unknown-directive one, and returns without classifying, leaving
previousDirective (and Current) unchanged. -/
theorem claim_C5_option_two_token_label (p : Parse) (fs : Fetch) (l : Linter)
    (line loc : Str)
    (hm : l.State.InMultiline = false) (htrim : goTrimSpace line = line)
    (hne : line ≠ []) (hne2 : line ≠ "#".data)
    (hcmt : goHasPfx "#".data line = false)
    (hbs : goHasSfx "\x5c".data line = false)
    {rest : List Str} (hsplit : goSplitSpace line = "Option".data :: rest)
    {ms : List Str} {l' : Linter}
    (hrun : ProcessLineAt p fs l line loc = some (ms, l')) :
    ((goSplitSpace line).length = 2 →
      ((lookupLabel line = none → lookupLowerLabel (goToLower line) = none →
         ms = (if l.Whitespace && TrailingSpaceOrTabCheck line then [msgL5002]
               else []) ++ [msgL9001 line] ∧
         l'.State.Previous = l.State.Previous) ∧
       (∀ d, lookupLabel line = some d →
         l'.State.Label = line ∧ l'.State.Current = d))) ∧
    ((goSplitSpace line).length ≠ 2 →
      ms = (if l.Whitespace && TrailingSpaceOrTabCheck line then [msgL5002]
            else []) ++ [msgL3008] ∧
      (∀ t, msgL9001 t ∉ ms) ∧
      l'.State.Previous = l.State.Previous ∧
      l'.State.Current = l.State.Current) := by
  constructor
  · intro hlen
    rw [hsplit] at hlen
    simp only [List.length_cons, Nat.succ_inj] at hlen
    have hrest : ∃ t2, rest = [t2] := by
      rcases rest with _ | ⟨t2, rest'⟩
      · simp at hlen
      · simp at hlen
        simp [hlen]
    obtain ⟨t2, ht2⟩ := hrest
    subst ht2
    have hclA := classifyLine_option_two hsplit
    constructor
    · intro hl1 hl2
      rw [hl1, hl2] at hclA
      rw [processLineAt_classify_step p fs l line loc hm htrim hne hne2 hcmt hbs,
        hclA] at hrun
      simp only [Option.map_some'] at hrun
      have h1 : _ = ms := congrArg Prod.fst (Option.some.inj hrun)
      have h2 : _ = l' := congrArg Prod.snd (Option.some.inj hrun)
      exact ⟨h1.symm, by rw [← h2]⟩
    · intro d hd
      rw [hd] at hclA
      rw [processLineAt_classify_step p fs l line loc hm htrim hne hne2 hcmt hbs,
        hclA] at hrun
      simp only [Option.map_some'] at hrun
      have h2 : _ = l' := congrArg Prod.snd (Option.some.inj hrun)
      rw [← h2]
      exact processDirective_labcur ..
  · intro hlen
    have hclB := classifyLine_option_bad hsplit hlen
    rw [processLineAt_classify_step p fs l line loc hm htrim hne hne2 hcmt hbs,
      hclB] at hrun
    simp only [Option.map_some'] at hrun
    have h1 : _ = ms := congrArg Prod.fst (Option.some.inj hrun)
    have h2 : _ = l' := congrArg Prod.snd (Option.some.inj hrun)
    refine ⟨h1.symm, ?_, by rw [← h2], by rw [← h2]⟩
    intro t ht
    rw [← h1] at ht
    rcases List.mem_append.mp ht with hA | hB
    · rcases Bool.eq_false_or_eq_true (l.Whitespace && TrailingSpaceOrTabCheck line)
        with hw | hw
      · rw [hw] at hA
        have heq : msgL9001 t = msgL5002 := by simpa using hA
        exact msg_ne_of_code (code_msgL9001 t) code_msgL5002 rfl (by decide) heq
      · rw [hw] at hA; simp at hA
    · have heq : msgL9001 t = msgL3008 := by simpa using hB
      exact msg_ne_of_code (code_msgL9001 t) code_msgL3008 rfl (by decide) heq

/-- Concrete malformed-free two-token Option line with an unknown
option name, for evaluating C5. -/
def c5Line : Str := ("Option Foo").data

/-- Result of processing the concrete Option line from a fresh
linter. -/
def c5Res : List Str × Linter :=
  (ProcessLineAt simpleParse simpleFetch Linter.zero c5Line ("f:1").data).getD
    ([], Linter.zero)

/-- Witness for C5 at a concrete input: the unknown-directive
diagnostic quotes the whole two-token line as the lookup key, and
previousDirective stays Undefined. -/
theorem claim_C5_option_two_token_label_witness :
    c5Res.1 = [msgL9001 c5Line] ∧
    c5Res.2.State.Previous = Directive.Undefined := by
  have hsp : goSplitSpace c5Line = "Option".data :: [("Foo").data] := by decide
  have hrun : ProcessLineAt simpleParse simpleFetch Linter.zero c5Line
      ("f:1").data = some (c5Res.1, c5Res.2) := rfl
  have h := claim_C5_option_two_token_label simpleParse simpleFetch Linter.zero
    c5Line ("f:1").data rfl rfl (by decide) (by decide) (by decide) (by decide)
    hsp hrun
  obtain ⟨hA, _⟩ := h
  obtain ⟨h1, _⟩ := hA (by decide)
  obtain ⟨hms, hprev⟩ := h1 (by decide) (by decide)
  exact ⟨hms.trans (by decide), hprev.trans rfl⟩

theorem asciiLowerChar_space {c : Char} (h : asciiLowerChar c = ' ') :
    c = ' ' := by
  unfold asciiLowerChar at h
  split at h <;> simp_all

theorem goSplitSpace_structure :
    ∀ (line : Str) {a : Str} {rest : List Str},
    goSplitSpace line = a :: rest →
    (rest = [] ∧ line = a) ∨
    ∃ line', line = a ++ ' ' :: line' ∧ goSplitSpace line' = rest := by
  intro line
  induction line with
  | nil =>
    intro a rest h
    simp [goSplitSpace] at h
    left
    refine ⟨?_, ?_⟩ <;> simp_all
  | cons c cs ih =>
    intro a rest h
    by_cases hc : c = ' '
    · subst hc
      simp [goSplitSpace] at h
      right
      refine ⟨cs, ?_, ?_⟩ <;> simp_all
    · simp only [goSplitSpace, if_neg hc] at h
      rcases hsplit : goSplitSpace cs with _ | ⟨t, ts⟩
      · exact absurd hsplit (goSplitSpace_ne_nil cs)
      · rw [hsplit] at h
        obtain ⟨ha, hr⟩ := List.cons.inj h
        subst hr
        rcases ih hsplit with ⟨h1, h2⟩ | ⟨line', hl1, hl2⟩
        · left
          exact ⟨h1, by rw [h2, ← ha]⟩
        · right
          exact ⟨line', by rw [hl1, ← ha]; rfl, hl2⟩

theorem goSplitSpace_mem_no_space :
    ∀ (s : Str) {f : Str}, f ∈ goSplitSpace s → ' ' ∉ f := by
  intro s
  induction s with
  | nil =>
    intro f hf
    simp [goSplitSpace] at hf
    simp [hf]
  | cons c cs ih =>
    intro f hf
    by_cases hc : c = ' '
    · subst hc
      simp [goSplitSpace] at hf
      rcases hf with hf | hf
      · simp [hf]
      · exact ih hf
    · simp only [goSplitSpace, if_neg hc] at hf
      rcases hsplit : goSplitSpace cs with _ | ⟨t, ts⟩
      · exact absurd hsplit (goSplitSpace_ne_nil cs)
      · rw [hsplit] at hf
        rcases List.mem_cons.mp hf with hf | hf
        · subst hf
          intro hsp
          rcases List.mem_cons.mp hsp with hsp | hsp
          · exact hc hsp.symm
          · exact ih (hsplit ▸ List.mem_cons_self t ts) hsp
        · exact ih (hsplit ▸ List.mem_cons_of_mem t hf)

theorem lookupLabel_mem {t : Str} {d : Directive}
    (h : lookupLabel t = some d) :
    ∃ kv ∈ labelToDirective, kv.1.data = t ∧ kv.2 = d := by
  unfold lookupLabel at h
  rcases hf : labelToDirective.find? (fun kv => kv.1.data = t) with _ | kv
  · rw [hf] at h; simp at h
  · rw [hf] at h
    simp only [Option.map_some', Option.some.injEq] at h
    have hm := List.mem_of_find?_eq_some hf
    have hp := List.find?_some hf
    exact ⟨kv, hm, by simpa using hp, h⟩

theorem lookupLowerLabel_mem {t : Str} {d : Directive}
    (h : lookupLowerLabel t = some d) :
    ∃ kv ∈ labelToDirective, goToLower kv.1.data = t ∧ kv.2 = d := by
  unfold lookupLowerLabel at h
  rcases hf : labelToDirective.find? (fun kv => goToLower kv.1.data = t)
    with _ | kv
  · rw [hf] at h; simp at h
  · rw [hf] at h
    simp only [Option.map_some', Option.some.injEq] at h
    have hm := List.mem_of_find?_eq_some hf
    have hp := List.find?_some hf
    exact ⟨kv, hm, by simpa using hp, h⟩

theorem lookupLower_isSome_of_exact {t : Str} (h : (lookupLabel t).isSome) :
    (lookupLowerLabel (goToLower t)).isSome := by
  rcases hs : lookupLabel t with _ | d
  · rw [hs] at h; simp at h
  · obtain ⟨kv, hmem, hk, _⟩ := lookupLabel_mem hs
    unfold lookupLowerLabel
    have hfind : (labelToDirective.find?
        (fun kv' => goToLower kv'.1.data = goToLower t)).isSome :=
      List.find?_isSome.mpr ⟨kv, hmem, by simp [hk]⟩
    simpa using hfind

set_option maxRecDepth 4000 in
theorem lower_uae_none :
    lookupLowerLabel ("urlappendencoded").data = none := by decide

set_option maxRecDepth 4000 in
theorem uae_keys :
    ∀ kv ∈ labelToDirective, kv.2 = Directive.URLAppendEncoded →
      kv.1 = "URLAppendEncoded " := by decide

theorem processComment_current (fs : Fetch) (l : Linter) (m0 : List Str)
    (line : Str) :
    (processComment fs l m0 line).2.State.Current = l.State.Current := by
  unfold processComment
  (repeat' split) <;> rfl

/-- Classification can never produce the URLAppendEncoded directive:
its only table key carries a trailing space, and no extracted label
(a split field, or an Option line rejoined from two fields) matches it
in either the exact-case or the lowercase table. -/
theorem classify_not_uae {line lbl : Str} {d : Directive} {wc : Bool}
    (h : classifyLine line = some (.ok lbl d wc)) :
    d ≠ .URLAppendEncoded := by
  intro hd
  subst hd
  unfold classifyLine at h
  rcases hs : goSplitSpace line with _ | ⟨lab, rest⟩
  · rw [hs] at h; cases h
  · rw [hs] at h
    dsimp only at h
    by_cases hopt : lab = "Option".data
    · rw [if_pos hopt] at h
      by_cases hlen : (goSplitSpace line).length ≠ 2
      · rw [hs] at hlen
        rw [if_pos hlen] at h
        cases h
      · rw [hs] at hlen
        rw [if_neg hlen] at h
        push_neg at hlen
        have hrest : ∃ t2, rest = [t2] := by
          rcases rest with _ | ⟨t2, rest'⟩
          · simp at hlen
          · simp at hlen
            simp [hlen]
        obtain ⟨t2, ht2⟩ := hrest
        subst ht2 hopt
        have hstruct := goSplitSpace_structure line hs
        rcases hstruct with ⟨hc, _⟩ | ⟨line', hl1, _⟩
        · cases hc
        · rcases hx : lookupLabel line with _ | d0
          · rcases hy : lookupLowerLabel (goToLower line) with _ | d1
            · rw [hx, hy] at h; cases h
            · rw [hx, hy] at h
              simp only [Option.some.injEq, ClassOut.ok.injEq] at h
              obtain ⟨kv, _, hk, hv⟩ := lookupLowerLabel_mem hy
              rw [uae_keys kv (by assumption) (hv.trans h.2.1)] at hk
              rw [hl1] at hk
              simp [goToLower, asciiLowerChar] at hk
          · rw [hx] at h
            simp only [Option.some.injEq, ClassOut.ok.injEq] at h
            obtain ⟨kv, _, hk, hv⟩ := lookupLabel_mem hx
            rw [uae_keys kv (by assumption) (hv.trans h.2.1)] at hk
            rw [hl1] at hk
            simp at hk
    · rw [if_neg hopt] at h
      have hnospace : ' ' ∉ lab :=
        goSplitSpace_mem_no_space line (hs ▸ List.mem_cons_self lab rest)
      rcases hx : lookupLabel lab with _ | d0
      · rcases hy : lookupLowerLabel (goToLower lab) with _ | d1
        · rw [hx, hy] at h; cases h
        · rw [hx, hy] at h
          simp only [Option.some.injEq, ClassOut.ok.injEq] at h
          obtain ⟨kv, _, hk, hv⟩ := lookupLowerLabel_mem hy
          rw [uae_keys kv (by assumption) (hv.trans h.2.1)] at hk
          have hsp : ' ' ∈ goToLower lab := by
            rw [← hk]
            decide
          obtain ⟨c, hc, hcl⟩ := List.mem_map.mp hsp
          exact hnospace (asciiLowerChar_space hcl ▸ hc)
      · rw [hx] at h
        simp only [Option.some.injEq, ClassOut.ok.injEq] at h
        obtain ⟨kv, _, hk, hv⟩ := lookupLabel_mem hx
        rw [uae_keys kv (by assumption) (hv.trans h.2.1)] at hk
        have hsp : ' ' ∈ lab := by
          rw [← hk]
          decide
        exact hnospace hsp

/-- No single call of the processor can move Current to
URLAppendEncoded. -/
theorem processLineAt_not_uae (p : Parse) (fs : Fetch) (l2 : Linter)
    (line2 loc2 : Str) {ms2 : List Str} {l2' : Linter}
    (hcur : l2.State.Current ≠ .URLAppendEncoded)
    (hrun2 : ProcessLineAt p fs l2 line2 loc2 = some (ms2, l2')) :
    l2'.State.Current ≠ .URLAppendEncoded := by
  unfold ProcessLineAt at hrun2
  dsimp only at hrun2
  repeat' split at hrun2
  all_goals
    first
    | (have h2 : _ = l2' := congrArg Prod.snd (Option.some.inj hrun2)
       rw [← h2]
       first
       | exact fun hX => Directive.noConfusion hX
       | (rw [processComment_current]; exact hcur)
       | (rw [(processDirective_labcur ..).2]
          exact classify_not_uae (by assumption))
       | exact hcur)
    | exact absurd hrun2 (by simp)

/-- C9: because the directive table keys URLAppendEncoded under a label
with a trailing space and extracted labels never contain one, every
line whose first field lowercases to urlappendencoded (any letter
casing) is reported as an unknown directive, with previousDirective
left unchanged; moreover no call of the processor can ever classify a
line as URLAppendEncoded. -/
theorem claim_C9_urlappendencoded_unreachable (p : Parse) (fs : Fetch)
    (l : Linter) (line loc : Str)
    (hm : l.State.InMultiline = false) (htrim : goTrimSpace line = line)
    (hbs : goHasSfx "\x5c".data line = false)
    {t : Str} {rest : List Str} (hsplit : goSplitSpace line = t :: rest)
    (hlow : goToLower t = ("urlappendencoded").data)
    {ms : List Str} {l' : Linter}
    (hrun : ProcessLineAt p fs l line loc = some (ms, l')) :
    (ms = (if l.Whitespace && TrailingSpaceOrTabCheck line then [msgL5002]
           else []) ++ [msgL9001 t] ∧
     l'.State.Previous = l.State.Previous) ∧
    (∀ (l2 : Linter) (line2 loc2 : Str) (ms2 : List Str) (l2' : Linter),
      l2.State.Current ≠ .URLAppendEncoded →
      ProcessLineAt p fs l2 line2 loc2 = some (ms2, l2') →
      l2'.State.Current ≠ .URLAppendEncoded) := by
  refine ⟨?_, fun l2 line2 loc2 ms2 l2' hcur hrun2 =>
    processLineAt_not_uae p fs l2 line2 loc2 hcur hrun2⟩
  rcases t with _ | ⟨c0, t'⟩
  · simp [goToLower] at hlow
  · obtain ⟨hc0, -⟩ := List.cons.inj
      (show asciiLowerChar c0 :: goToLower t' = 'u' :: ("rlappendencoded").data
        from hlow)
    have hc0ne : c0 ≠ '#' := by
      intro hh
      rw [hh] at hc0
      exact absurd hc0 (by decide)
    obtain ⟨xs, hline⟩ : ∃ xs, line = c0 :: xs := by
      rcases goSplitSpace_structure line hsplit with ⟨_, hleq⟩ |
        ⟨line', hleq, _⟩
      · exact ⟨t', hleq⟩
      · exact ⟨t' ++ ' ' :: line', by rw [hleq]; rfl⟩
    have hne : line ≠ [] := by rw [hline]; simp
    have hne2 : line ≠ "#".data := by
      rw [hline]
      intro hh
      rw [show ("#").data = ['#'] from rfl] at hh
      exact hc0ne (List.cons.inj hh).1
    have hcmt : goHasPfx "#".data line = false := by
      rw [hline]
      simp [goHasPfx, List.isPrefixOf, Ne.symm hc0ne]
    have hoption : (c0 :: t') ≠ "Option".data := by
      intro hh
      rw [hh] at hlow
      exact absurd hlow (by decide)
    have hexact : lookupLabel (c0 :: t') = none := by
      rcases hx : lookupLabel (c0 :: t') with _ | d0
      · rfl
      · have hS := lookupLower_isSome_of_exact (t := c0 :: t')
          (by simp [hx])
        rw [hlow, lower_uae_none] at hS
        simp at hS
    have hlower : lookupLowerLabel (goToLower (c0 :: t')) = none := by
      rw [hlow]; exact lower_uae_none
    have hcl := classifyLine_of_split hsplit hoption
    rw [hexact, hlower] at hcl
    rw [processLineAt_classify_step p fs l line loc hm htrim hne hne2 hcmt hbs,
      hcl] at hrun
    simp only [Option.map_some'] at hrun
    have h1 : _ = ms := congrArg Prod.fst (Option.some.inj hrun)
    have h2 : _ = l' := congrArg Prod.snd (Option.some.inj hrun)
    exact ⟨h1.symm, by rw [← h2]⟩

/-- A line naming URLAppendEncoded with its exact published casing. -/
def c9Line : Str := ("URLAppendEncoded foo").data

/-- Result of processing the URLAppendEncoded line from a fresh
linter. -/
def c9Res : List Str × Linter :=
  (ProcessLineAt simpleParse simpleFetch Linter.zero c9Line ("f:1").data).getD
    ([], Linter.zero)

/-- Witness for C9 at a concrete input: the exact-cased
URLAppendEncoded line is reported as an unknown directive and
previousDirective stays Undefined. -/
theorem claim_C9_urlappendencoded_unreachable_witness :
    c9Res.1 = [msgL9001 (("URLAppendEncoded").data)] ∧
    c9Res.2.State.Previous = Directive.Undefined := by
  have hsp : goSplitSpace c9Line =
      ("URLAppendEncoded").data :: [("foo").data] := by decide
  have hrun : ProcessLineAt simpleParse simpleFetch Linter.zero c9Line
      ("f:1").data = some (c9Res.1, c9Res.2) := rfl
  have h := claim_C9_urlappendencoded_unreachable simpleParse simpleFetch
    Linter.zero c9Line ("f:1").data rfl (by decide) (by decide) hsp
    (by decide) hrun
  obtain ⟨⟨hms, hprev⟩, -⟩ := h
  exact ⟨hms.trans (by decide), hprev.trans rfl⟩

/-- Result of processing a first Title line from a fresh linter. -/
def c4Res1 : List Str × Linter :=
  (ProcessLineAt simpleParse simpleFetch Linter.zero (("Title A").data)
    ("f:1").data).getD ([], Linter.zero)

/-- Result of processing a second Title line in the same stanza. -/
def c4Res2 : List Str × Linter :=
  (ProcessLineAt simpleParse simpleFetch c4Res1.2 (("Title B").data)
    ("f:2").data).getD ([], Linter.zero)

/-- C4 counterexample: after "Title A" then "Title B" in one stanza the
duplicate diagnostic is emitted but the stored title is "B", the second
value — the first-seen value "A" is NOT retained. -/
theorem claim_C4_title_retention_counterexample :
    c4Res1.1 = [] ∧ c4Res1.2.State.Title = ("A").data ∧
    c4Res2.1 = [msgL1001 Directive.Title, msgL2001] ∧
    c4Res2.2.State.Title = ("B").data ∧
    c4Res2.2.State.Title ≠ ("A").data := by decide

/-- C4 (amended): processing a Title line when the stanza state already
has a non-empty title emits the duplicate-Title diagnostic, and the
title field is unconditionally overwritten with the new line\x27s
trimmed value. -/
theorem claim_C4_second_title_overwrites (l : Linter) (line loc : Str)
    (h : l.State.Title ≠ []) :
    msgL2001 ∈ (ProcessTitle l line loc).1 ∧
    (ProcessTitle l line loc).2.State.Title = TrimLabel line l.State.Label := by
  refine ⟨?_, rfl⟩
  simp only [ProcessTitle]
  simp [h]

/-- Witness for the amended C4 at a concrete input: the linter that has
just processed "Title A" has a non-empty title, and processing
"Title B" emits the duplicate diagnostic and overwrites the title. -/
theorem claim_C4_second_title_overwrites_witness :
    msgL2001 ∈ (ProcessTitle c4Res1.2 (("Title B").data) ("f:2").data).1 ∧
    (ProcessTitle c4Res1.2 (("Title B").data) ("f:2").data).2.State.Title =
      TrimLabel (("Title B").data) c4Res1.2.State.Label :=
  claim_C4_second_title_overwrites c4Res1.2 (("Title B").data) ("f:2").data
    (by decide)

theorem goHasSfx_dollar_iff (f : Str) :
    goHasSfx ['$'] f = true ↔ ∃ X, f = X ++ ['$'] := by
  unfold goHasSfx
  rw [List.isSuffixOf_iff_suffix]
  constructor
  · rintro ⟨t, ht⟩
    exact ⟨t, ht.symm⟩
  · rintro ⟨X, hX⟩
    exact ⟨X, hX.symm⟩

theorem goCutSuffix_snd (f : Str) :
    (goCutSuffix f ['$']).2 = goHasSfx ['$'] f := by
  unfold goCutSuffix
  split <;> simp_all

theorem goCutSuffix_append_char (X : Str) (c : Char) :
    goCutSuffix (X ++ [c]) [c] = (X, true) := by
  have hs : goHasSfx [c] (X ++ [c]) = true := by
    unfold goHasSfx
    rw [List.isSuffixOf_iff_suffix]
    exact ⟨X, rfl⟩
  unfold goCutSuffix
  rw [hs]
  simp [List.take_left]

theorem phe_rel_iff (f r : Str) :
    ((goCutSuffix f ['$']).2 = true ∧
     goReplaceAllChar (goCutSuffix f ['$']).1 '.' '-' = r) ↔
    ∃ X, f = X ++ ['$'] ∧ r = goReplaceAllChar X '.' '-' := by
  constructor
  · rintro ⟨h2, h1⟩
    rw [goCutSuffix_snd] at h2
    obtain ⟨X, hX⟩ := (goHasSfx_dollar_iff f).1 h2
    subst hX
    rw [goCutSuffix_append_char] at h1
    exact ⟨X, rfl, h1.symm⟩
  · rintro ⟨X, hX, hr⟩
    subst hX
    rw [goCutSuffix_append_char]
    exact ⟨rfl, hr.symm⟩

theorem msgL3002_ne_l1008 (p : Directive) : msgL3002 ≠ msgL1008 p :=
  msg_ne_of_code code_msgL3002 (code_msgL1008 p) (by decide) (by decide)

theorem msgL3002_ne_l1009 (pat : Str) : msgL3002 ≠ msgL1009 pat :=
  msg_ne_of_code code_msgL3002 (code_msgL1009 pat) (by decide) (by decide)

theorem msgL3003_ne_l1008 (p : Directive) : msgL3003 ≠ msgL1008 p :=
  msg_ne_of_code code_msgL3003 (code_msgL1008 p) (by decide) (by decide)

theorem msgL3003_ne_l1009 (pat : Str) : msgL3003 ≠ msgL1009 pat :=
  msg_ne_of_code code_msgL3003 (code_msgL1009 pat) (by decide) (by decide)

theorem msgL3002_ne_l3003 : msgL3002 ≠ msgL3003 :=
  msg_ne_of_code code_msgL3002 code_msgL3003 (by decide) (by decide)

theorem msgL3002_not_mem_m1 (l : Linter) (ds : List Directive) :
    msgL3002 ∉ (if ds.contains l.State.Previous then ([] : List Str)
                else [msgL1008 l.State.Previous]) := by
  split
  · simp
  · simp [msgL3002_ne_l1008 l.State.Previous]

theorem msgL3003_not_mem_m1 (l : Linter) (ds : List Directive) :
    msgL3003 ∉ (if ds.contains l.State.Previous then ([] : List Str)
                else [msgL1008 l.State.Previous]) := by
  split
  · simp
  · simp [msgL3003_ne_l1008 l.State.Previous]

/-- C7: with additional ProxyHostnameEdit checks enabled, a
ProxyHostnameEdit payload of exactly two tokens produces neither the
missing-dollar (L3002) nor the malformed-replace (L3003) diagnostic
precisely when the find token is some X followed by a dollar sign and
the replace token equals X with every period replaced by a hyphen;
whenever that relation fails at least one of the two diagnostics is
emitted. -/
theorem claim_C7_phe_roundtrip (l : Linter) (line : Str)
    (hadd : l.AdditionalPHEChecks = true)
    {f r : Str}
    (hsplit : goSplitSpace (TrimLabel line l.State.Label) = [f, r])
    {ms : List Str} {l' : Linter}
    (hrun : ProcessProxyHostnameEdit l line = (ms, l')) :
    (msgL3002 ∉ ms ∧ msgL3003 ∉ ms) ↔
    ∃ X, f = X ++ ("$").data ∧ r = goReplaceAllChar X '.' '-' := by
  rw [show ("$").data = ['$'] from rfl, ← phe_rel_iff f r]
  simp only [ProcessProxyHostnameEdit, hsplit, hadd, if_true] at hrun
  injection hrun with hms hl2
  subst hms
  constructor
  · rintro ⟨h2, h3⟩
    rcases hcut : (goCutSuffix f ['$']).2 with _ | _
    · exfalso
      apply h2
      rw [hcut]
      simp
    · refine ⟨rfl, ?_⟩
      by_contra hrep
      apply h3
      rw [if_neg hrep]
      simp
  · rintro ⟨h2, h3⟩
    rw [if_pos h2, if_pos h3]
    simp only [List.append_nil]
    constructor
    · intro hmem
      rcases List.mem_append.1 hmem with h | h
      · exact msgL3002_not_mem_m1 l _ h
      · obtain ⟨pat, -, hp⟩ := List.mem_map.1 h
        exact msgL3002_ne_l1009 pat hp.symm
    · intro hmem
      rcases List.mem_append.1 hmem with h | h
      · exact msgL3003_not_mem_m1 l _ h
      · obtain ⟨pat, -, hp⟩ := List.mem_map.1 h
        exact msgL3003_ne_l1009 pat hp.symm

/-- A linter with the additional ProxyHostnameEdit checks enabled. -/
def c7L : Linter := { Linter.zero with AdditionalPHEChecks := true }

/-- Witness for C7 at a concrete input: the well-formed pair
"a.b$ a-b" satisfies the round-trip relation, so neither
malformation diagnostic is emitted. -/
theorem claim_C7_phe_roundtrip_witness :
    msgL3002 ∉ (ProcessProxyHostnameEdit c7L (("a.b$ a-b").data)).1 ∧
    msgL3003 ∉ (ProcessProxyHostnameEdit c7L (("a.b$ a-b").data)).1 :=
  (claim_C7_phe_roundtrip c7L (("a.b$ a-b").data) rfl
    (show goSplitSpace (TrimLabel (("a.b$ a-b").data) c7L.State.Label) =
      [("a.b$").data, ("a-b").data] from by decide) rfl).2
    ⟨("a.b").data, by decide, by decide⟩

/-- A Linter with the InMultiline flag cleared: two linters with the
same mask agree on every observable field except InMultiline. -/
def maskL (l : Linter) : Linter :=
  { l with State := { l.State with InMultiline := false } }

/-- A processing result with the InMultiline flag of its state
cleared. -/
def maskIM (x : List Str × Linter) : List Str × Linter := (x.1, maskL x.2)

theorem eq_setIM_of_maskL_eq {l1 l2 : Linter} (h : maskL l1 = maskL l2) :
    l2 = { l1 with State :=
             { l1.State with InMultiline := l2.State.InMultiline } } :=
  (congrArg (fun z : Linter =>
    { z with State :=
        { z.State with InMultiline := l2.State.InMultiline } }) h).symm

theorem ProcessOptionOpener_mask {l1 l2 : Linter} (h : maskL l1 = maskL l2) :
    maskIM (ProcessOptionOpener l1) = maskIM (ProcessOptionOpener l2) := by
  rw [eq_setIM_of_maskL_eq h]
  unfold ProcessOptionOpener maskIM maskL
  try dsimp only
  repeat' split
  all_goals first | rfl | simp_all

theorem ProcessOptionCloser_mask {l1 l2 : Linter} (h : maskL l1 = maskL l2) :
    maskIM (ProcessOptionCloser l1) = maskIM (ProcessOptionCloser l2) := by
  rw [eq_setIM_of_maskL_eq h]
  unfold ProcessOptionCloser maskIM maskL
  try dsimp only
  repeat' split
  all_goals first | rfl | simp_all

theorem ProcessProxyHostnameEdit_mask (line : Str) {l1 l2 : Linter}
    (h : maskL l1 = maskL l2) :
    maskIM (ProcessProxyHostnameEdit l1 line) =
      maskIM (ProcessProxyHostnameEdit l2 line) := by
  rw [eq_setIM_of_maskL_eq h]
  unfold ProcessProxyHostnameEdit maskIM maskL
  try dsimp only
  repeat' split
  all_goals first | rfl | simp_all

theorem ProcessAddUserHeader_mask (line : Str) {l1 l2 : Linter}
    (h : maskL l1 = maskL l2) :
    maskIM (ProcessAddUserHeader l1 line) =
      maskIM (ProcessAddUserHeader l2 line) := by
  rw [eq_setIM_of_maskL_eq h]
  unfold ProcessAddUserHeader maskIM maskL
  try dsimp only
  repeat' split
  all_goals first | rfl | simp_all

theorem ProcessAnonymousURL_mask (line : Str) {l1 l2 : Linter}
    (h : maskL l1 = maskL l2) :
    maskIM (ProcessAnonymousURL l1 line) =
      maskIM (ProcessAnonymousURL l2 line) := by
  rw [eq_setIM_of_maskL_eq h]
  unfold ProcessAnonymousURL maskIM maskL
  try dsimp only
  repeat' split
  all_goals first | rfl | simp_all

theorem ProcessTitle_mask (line loc : Str) {l1 l2 : Linter}
    (h : maskL l1 = maskL l2) :
    maskIM (ProcessTitle l1 line loc) = maskIM (ProcessTitle l2 line loc) := by
  rw [eq_setIM_of_maskL_eq h]
  unfold ProcessTitle maskIM maskL
  try dsimp only
  repeat' split
  all_goals first | rfl | simp_all

theorem ProcessDescription_mask (line loc : Str) {l1 l2 : Linter}
    (h : maskL l1 = maskL l2) :
    maskIM (ProcessDescription l1 line loc) =
      maskIM (ProcessDescription l2 line loc) := by
  rw [eq_setIM_of_maskL_eq h]
  unfold ProcessDescription maskIM maskL
  try dsimp only
  repeat' split
  all_goals first | rfl | simp_all

theorem ProcessHostAndHostJavaScript_mask (p : Parse) (line loc : Str)
    {l1 l2 : Linter} (h : maskL l1 = maskL l2) :
    maskIM (ProcessHostAndHostJavaScript p l1 line loc) =
      maskIM (ProcessHostAndHostJavaScript p l2 line loc) := by
  rw [eq_setIM_of_maskL_eq h]
  unfold ProcessHostAndHostJavaScript maskIM maskL
  try dsimp only
  repeat' split
  all_goals first | rfl | simp_all

theorem ProcessDomainAndDomainJavaScript_mask (p : Parse) (line : Str)
    {l1 l2 : Linter} (h : maskL l1 = maskL l2) :
    maskIM (ProcessDomainAndDomainJavaScript p l1 line) =
      maskIM (ProcessDomainAndDomainJavaScript p l2 line) := by
  rw [eq_setIM_of_maskL_eq h]
  unfold ProcessDomainAndDomainJavaScript maskIM maskL
  try dsimp only
  repeat' split
  all_goals first | rfl | simp_all

theorem ProcessURL_mask (p : Parse) (line loc : Str) {l1 l2 : Linter}
    (h : maskL l1 = maskL l2) :
    maskIM (ProcessURL p l1 line loc) = maskIM (ProcessURL p l2 line loc) := by
  rw [eq_setIM_of_maskL_eq h]
  unfold ProcessURL maskIM maskL
  try dsimp only
  repeat' split
  all_goals first | rfl | simp_all

theorem dispatchDirective_mask (p : Parse) (line loc : Str) (d : Directive)
    {l1 l2 : Linter} (h : maskL l1 = maskL l2) :
    maskIM (dispatchDirective p l1 line loc d) =
      maskIM (dispatchDirective p l2 line loc d) := by
  unfold dispatchDirective
  split
  · exact ProcessProxyHostnameEdit_mask _ h
  · exact ProcessAddUserHeader_mask _ h
  · exact ProcessAnonymousURL_mask _ h
  · exact ProcessTitle_mask _ _ h
  · exact ProcessDescription_mask _ _ h
  · exact ProcessURL_mask _ _ _ h
  · exact ProcessHostAndHostJavaScript_mask _ _ _ h
  · exact ProcessHostAndHostJavaScript_mask _ _ _ h
  · exact ProcessDomainAndDomainJavaScript_mask _ _ h
  · exact ProcessDomainAndDomainJavaScript_mask _ _ h
  · exact congrArg (Prod.mk ([] : List Str)) h

theorem processOptionPhase_mask (d : Directive) {l1 l2 : Linter}
    (h : maskL l1 = maskL l2) :
    maskIM (processOptionPhase l1 d) = maskIM (processOptionPhase l2 d) := by
  unfold processOptionPhase
  split
  · exact ProcessOptionOpener_mask h
  · split
    · exact ProcessOptionCloser_mask h
    · exact congrArg (Prod.mk ([] : List Str)) h

theorem maskL_update_prev (d : Directive) {x y : Linter}
    (hxy : maskL x = maskL y) :
    maskL { x with State := { x.State with Previous := d } } =
    maskL { y with State := { y.State with Previous := d } } :=
  congrArg (fun z : Linter =>
    { z with State := { z.State with Previous := d } }) hxy

theorem processDirective_mask (p : Parse) (m0 : List Str) (line loc lbl : Str)
    (d : Directive) (wc : Bool) {l1 l2 : Linter} (h : maskL l1 = maskL l2) :
    maskIM (processDirective p l1 m0 line loc lbl d wc) =
      maskIM (processDirective p l2 m0 line loc lbl d wc) := by
  obtain ⟨b, hb⟩ : ∃ b, l2.State.InMultiline = b := ⟨_, rfl⟩
  have hl2 := eq_setIM_of_maskL_eq h
  rw [hb] at hl2
  subst hl2
  unfold processDirective
  dsimp only
  split
  · rfl
  · have hpop : maskIM (processOptionPhase { l1 with State := { l1.State with Current := d, Label := lbl } } d) = maskIM (processOptionPhase { l1 with State := { l1.State with InMultiline := b, Current := d, Label := lbl } } d) :=
      processOptionPhase_mask d rfl
    have hp1x := congrArg Prod.fst hpop
    have hp2x := congrArg Prod.snd hpop
    have hp1 : (processOptionPhase { l1 with State := { l1.State with Current := d, Label := lbl } } d).1 = (processOptionPhase { l1 with State := { l1.State with InMultiline := b, Current := d, Label := lbl } } d).1 := hp1x
    have hp2 : maskL (processOptionPhase { l1 with State := { l1.State with Current := d, Label := lbl } } d).2 = maskL (processOptionPhase { l1 with State := { l1.State with InMultiline := b, Current := d, Label := lbl } } d).2 := hp2x
    have hdd := dispatchDirective_mask p line loc d hp2
    have hd1x := congrArg Prod.fst hdd
    have hd2x := congrArg Prod.snd hdd
    have hd1 : (dispatchDirective p (processOptionPhase { l1 with State := { l1.State with Current := d, Label := lbl } } d).2 line loc d).1 = (dispatchDirective p (processOptionPhase { l1 with State := { l1.State with InMultiline := b, Current := d, Label := lbl } } d).2 line loc d).1 := hd1x
    have hd2 : maskL (dispatchDirective p (processOptionPhase { l1 with State := { l1.State with Current := d, Label := lbl } } d).2 line loc d).2 = maskL (dispatchDirective p (processOptionPhase { l1 with State := { l1.State with InMultiline := b, Current := d, Label := lbl } } d).2 line loc d).2 := hd2x
    apply congrArg₂ Prod.mk
    · rw [hp1, hd1]
    · exact maskL_update_prev d hd2

theorem processBoundary_mask (m0 : List Str) {l1 l2 : Linter}
    (h : maskL l1 = maskL l2) :
    processBoundary l1 m0 = processBoundary l2 m0 := by
  rw [eq_setIM_of_maskL_eq h]
  unfold processBoundary
  try dsimp only
  repeat' split
  all_goals first | rfl | simp_all

theorem processComment_mask (fs : Fetch) (m0 : List Str) (line : Str)
    {l1 l2 : Linter} (h : maskL l1 = maskL l2) :
    maskIM (processComment fs l1 m0 line) =
      maskIM (processComment fs l2 m0 line) := by
  rw [eq_setIM_of_maskL_eq h]
  unfold processComment maskIM maskL
  try dsimp only
  repeat' split
  all_goals first | rfl | simp_all

theorem processLineAt_mask (p : Parse) (fs : Fetch) (line loc : Str)
    {l1 l2 : Linter} (h : maskL l1 = maskL l2)
    (hseg : l1.State.PreviousMultilineSegments = []) :
    Option.map maskIM (ProcessLineAt p fs l1 line loc) =
      Option.map maskIM (ProcessLineAt p fs l2 line loc) := by
  obtain ⟨b, hb⟩ : ∃ b, l2.State.InMultiline = b := ⟨_, rfl⟩
  have hl2 := eq_setIM_of_maskL_eq h
  rw [hb] at hl2
  subst hl2
  unfold ProcessLineAt
  dsimp only
  split
  · simp only [Option.map_some']
    exact congrArg (fun x => some (maskIM x)) (processBoundary_mask _ rfl)
  · split
    · simp only [Option.map_some']
      exact congrArg some (processComment_mask fs _ _ rfl)
    · split
      · rfl
      · simp only [hseg, List.nil_append, ite_self]
        split
        · rfl
        · simp only [Option.map_some']
          rfl
        · simp only [Option.map_some']
          rfl
        · simp only [Option.map_some']
          exact congrArg some (processDirective_mask p _ _ _ _ _ _ rfl)

theorem ProcessOptionOpener_ml (l : Linter) :
    (ProcessOptionOpener l).2.State.InMultiline = l.State.InMultiline ∧
    (ProcessOptionOpener l).2.State.PreviousMultilineSegments
      = l.State.PreviousMultilineSegments := ⟨rfl, rfl⟩

theorem ProcessOptionCloser_ml (l : Linter) :
    (ProcessOptionCloser l).2.State.InMultiline = l.State.InMultiline ∧
    (ProcessOptionCloser l).2.State.PreviousMultilineSegments
      = l.State.PreviousMultilineSegments := ⟨rfl, rfl⟩

theorem ProcessProxyHostnameEdit_ml (l : Linter) (line : Str) :
    (ProcessProxyHostnameEdit l line).2.State.InMultiline
      = l.State.InMultiline ∧
    (ProcessProxyHostnameEdit l line).2.State.PreviousMultilineSegments
      = l.State.PreviousMultilineSegments := by
  unfold ProcessProxyHostnameEdit
  try dsimp only
  (repeat' split) <;> exact ⟨rfl, rfl⟩

theorem ProcessAddUserHeader_ml (l : Linter) (line : Str) :
    (ProcessAddUserHeader l line).2.State.InMultiline = l.State.InMultiline ∧
    (ProcessAddUserHeader l line).2.State.PreviousMultilineSegments
      = l.State.PreviousMultilineSegments := by
  unfold ProcessAddUserHeader
  try dsimp only
  (repeat' split) <;> exact ⟨rfl, rfl⟩

theorem ProcessAnonymousURL_ml (l : Linter) (line : Str) :
    (ProcessAnonymousURL l line).2.State.InMultiline = l.State.InMultiline ∧
    (ProcessAnonymousURL l line).2.State.PreviousMultilineSegments
      = l.State.PreviousMultilineSegments := by
  unfold ProcessAnonymousURL
  try dsimp only
  (repeat' split) <;> exact ⟨rfl, rfl⟩

theorem ProcessTitle_ml (l : Linter) (line loc : Str) :
    (ProcessTitle l line loc).2.State.InMultiline = l.State.InMultiline ∧
    (ProcessTitle l line loc).2.State.PreviousMultilineSegments
      = l.State.PreviousMultilineSegments := ⟨rfl, rfl⟩

theorem ProcessDescription_ml (l : Linter) (line loc : Str) :
    (ProcessDescription l line loc).2.State.InMultiline
      = l.State.InMultiline ∧
    (ProcessDescription l line loc).2.State.PreviousMultilineSegments
      = l.State.PreviousMultilineSegments := ⟨rfl, rfl⟩

theorem ProcessHostAndHostJavaScript_ml (p : Parse) (l : Linter)
    (line loc : Str) :
    (ProcessHostAndHostJavaScript p l line loc).2.State.InMultiline
      = l.State.InMultiline ∧
    (ProcessHostAndHostJavaScript p l line loc).2.State.PreviousMultilineSegments
      = l.State.PreviousMultilineSegments := by
  unfold ProcessHostAndHostJavaScript
  try dsimp only
  (repeat' split) <;> exact ⟨rfl, rfl⟩

theorem ProcessDomainAndDomainJavaScript_ml (p : Parse) (l : Linter)
    (line : Str) :
    (ProcessDomainAndDomainJavaScript p l line).2.State.InMultiline
      = l.State.InMultiline ∧
    (ProcessDomainAndDomainJavaScript p l line).2.State.PreviousMultilineSegments
      = l.State.PreviousMultilineSegments := by
  unfold ProcessDomainAndDomainJavaScript
  try dsimp only
  (repeat' split) <;> exact ⟨rfl, rfl⟩

theorem ProcessURL_ml (p : Parse) (l : Linter) (line loc : Str) :
    (ProcessURL p l line loc).2.State.InMultiline = l.State.InMultiline ∧
    (ProcessURL p l line loc).2.State.PreviousMultilineSegments
      = l.State.PreviousMultilineSegments := by
  unfold ProcessURL
  try dsimp only
  (repeat' split) <;> exact ⟨rfl, rfl⟩

theorem dispatchDirective_ml (p : Parse) (l : Linter) (line loc : Str)
    (d : Directive) :
    (dispatchDirective p l line loc d).2.State.InMultiline
      = l.State.InMultiline ∧
    (dispatchDirective p l line loc d).2.State.PreviousMultilineSegments
      = l.State.PreviousMultilineSegments := by
  unfold dispatchDirective
  split
  · exact ProcessProxyHostnameEdit_ml ..
  · exact ProcessAddUserHeader_ml ..
  · exact ProcessAnonymousURL_ml ..
  · exact ProcessTitle_ml ..
  · exact ProcessDescription_ml ..
  · exact ProcessURL_ml ..
  · exact ProcessHostAndHostJavaScript_ml ..
  · exact ProcessHostAndHostJavaScript_ml ..
  · exact ProcessDomainAndDomainJavaScript_ml ..
  · exact ProcessDomainAndDomainJavaScript_ml ..
  · exact ⟨rfl, rfl⟩

theorem processOptionPhase_ml (l : Linter) (d : Directive) :
    (processOptionPhase l d).2.State.InMultiline = l.State.InMultiline ∧
    (processOptionPhase l d).2.State.PreviousMultilineSegments
      = l.State.PreviousMultilineSegments := by
  unfold processOptionPhase
  split
  · exact ProcessOptionOpener_ml _
  · split
    · exact ProcessOptionCloser_ml _
    · exact ⟨rfl, rfl⟩

/-- No directive handler changes the InMultiline flag or the multiline
segment buffer. -/
theorem processDirective_ml (p : Parse) (l : Linter) (m0 : List Str)
    (line loc lbl : Str) (d : Directive) (wc : Bool) :
    (processDirective p l m0 line loc lbl d wc).2.State.InMultiline
      = l.State.InMultiline ∧
    (processDirective p l m0 line loc lbl d wc).2.State.PreviousMultilineSegments
      = l.State.PreviousMultilineSegments := by
  unfold processDirective
  dsimp only
  split
  · exact ⟨rfl, rfl⟩
  · constructor
    · exact ((dispatchDirective_ml ..).1).trans
        ((processOptionPhase_ml ..).1)
    · exact ((dispatchDirective_ml ..).2).trans
        ((processOptionPhase_ml ..).2)

/-- One processing step on a line that completes a pending multiline
continuation: the buffered segments are prepended to the line, the
buffer is cleared, and the combined line is classified as usual. -/
theorem processLineAt_multiline_step (p : Parse) (fs : Fetch) (l : Linter)
    (line loc : Str) (hm : l.State.InMultiline = true)
    (htrim : goTrimSpace line = line) (hne : line ≠ [])
    (hne2 : line ≠ "#".data) (hcmt : goHasPfx "#".data line = false)
    (hbs : goHasSfx "\x5c".data line = false) :
    ProcessLineAt p fs l line loc =
      (classifyLine (l.State.PreviousMultilineSegments ++ line)).map (fun co =>
        let m0 := if l.Whitespace && TrailingSpaceOrTabCheck line then [msgL5002]
                  else []
        let l2 : Linter :=
          { l with State :=
              { l.State with LastLineEmpty := false,
                             PreviousMultilineSegments := [],
                             IsSeparator := false } }
        match co with
        | .malformed => (m0 ++ [msgL3008], l2)
        | .unknown lbl => (m0 ++ [msgL9001 lbl], l2)
        | .ok lbl d wc =>
            processDirective p l2 m0 (l.State.PreviousMultilineSegments ++ line)
              loc lbl d wc) := by
  unfold ProcessLineAt
  dsimp only
  rw [htrim]
  rw [if_neg (by simp [hne, hne2])]
  rw [if_neg (by simp [hcmt])]
  rw [if_neg (by simp [hbs])]
  simp only [hm]
  rcases hcl : classifyLine (l.State.PreviousMultilineSegments ++ line)
    with _ | co
  · simp [hcl]
  · cases co <;> simp [hcl]

/-- C10: a line that completes a pending multiline continuation clears
the segment buffer but leaves the InMultiline flag set; and for any
linter whose flag is set while its buffer is empty, processing any
line gives the same diagnostics and the same state apart from the
InMultiline flag as processing it with the flag cleared, so the stale
flag never affects diagnostics. -/
theorem claim_C10_multiline_stale_flag (p : Parse) (fs : Fetch) (l : Linter)
    (line loc : Str) (hm : l.State.InMultiline = true)
    (htrim : goTrimSpace line = line) (hne : line ≠ [])
    (hne2 : line ≠ "#".data) (hcmt : goHasPfx "#".data line = false)
    (hbs : goHasSfx "\x5c".data line = false)
    {ms : List Str} {l' : Linter}
    (hrun : ProcessLineAt p fs l line loc = some (ms, l')) :
    (l'.State.PreviousMultilineSegments = [] ∧ l'.State.InMultiline = true) ∧
    (∀ (l2 : Linter) (line2 loc2 : Str),
      l2.State.InMultiline = true →
      l2.State.PreviousMultilineSegments = [] →
      Option.map maskIM (ProcessLineAt p fs l2 line2 loc2) =
      Option.map maskIM (ProcessLineAt p fs { l2 with State := { l2.State with InMultiline := false } } line2 loc2)) := by
  constructor
  · rw [processLineAt_multiline_step p fs l line loc hm htrim hne hne2 hcmt
      hbs] at hrun
    rcases hcl : classifyLine (l.State.PreviousMultilineSegments ++ line)
      with _ | co
    · rw [hcl] at hrun
      exact absurd hrun (by simp)
    · rw [hcl] at hrun
      simp only [Option.map_some'] at hrun
      have h2 : _ = l' := congrArg Prod.snd (Option.some.inj hrun)
      rw [← h2]
      cases co with
      | malformed => exact ⟨rfl, hm⟩
      | unknown lbl => exact ⟨rfl, hm⟩
      | ok lbl d wc =>
        constructor
        · exact ((processDirective_ml ..).2).trans rfl
        · exact ((processDirective_ml ..).1).trans hm
  · intro l2 line2 loc2 _ hseg
    exact processLineAt_mask p fs line2 loc2 rfl hseg

/-- A linter inside a multiline continuation, holding a buffered
segment. -/
def c10L : Linter :=
  { Linter.zero with State := { Linter.zero.State with InMultiline := true, PreviousMultilineSegments := ("Title ").data } }

/-- Result of processing the line that completes the continuation. -/
def c10Res : List Str × Linter :=
  (ProcessLineAt simpleParse simpleFetch c10L ("A").data ("f:1").data).getD
    ([], Linter.zero)

/-- Witness for C10 at a concrete input: completing a continuation
clears the buffer and leaves the flag set. -/
theorem claim_C10_multiline_stale_flag_witness :
    c10Res.2.State.PreviousMultilineSegments = [] ∧
    c10Res.2.State.InMultiline = true :=
  (claim_C10_multiline_stale_flag simpleParse simpleFetch c10L ("A").data
    ("f:1").data rfl (by decide) (by decide) (by decide) (by decide)
    (by decide) rfl).1

/-! L4003 is distinguishable from every other diagnostic family, by its
trailing code or, for L9003, by its first character. -/

theorem head_msgL4003 (t : Str) : (msgL4003 t).head? = some 'S' := rfl

theorem msgL4003_ne_l5002 (t : Str) : msgL4003 t ≠ msgL5002 :=
  msg_ne_of_code (code_msgL4003 t) code_msgL5002 (by decide) (by decide)

theorem msgL4003_ne_l3008 (t : Str) : msgL4003 t ≠ msgL3008 :=
  msg_ne_of_code (code_msgL4003 t) code_msgL3008 (by decide) (by decide)

theorem msgL4003_ne_l9001 (t lbl : Str) : msgL4003 t ≠ msgL9001 lbl :=
  msg_ne_of_code (code_msgL4003 t) (code_msgL9001 lbl) (by decide) (by decide)

theorem msgL4003_ne_l5001 (t lbl : Str) (d : Directive) :
    msgL4003 t ≠ msgL5001 lbl d :=
  msg_ne_of_code (code_msgL4003 t) (code_msgL5001 lbl d) (by decide) (by decide)

theorem msgL4003_ne_l4004 (t : Str) : msgL4003 t ≠ msgL4004 :=
  msg_ne_of_code (code_msgL4003 t) code_msgL4004 (by decide) (by decide)

theorem msgL4003_ne_l1005 (t : Str) (c q : Directive) :
    msgL4003 t ≠ msgL1005 c q :=
  msg_ne_of_code (code_msgL4003 t) (code_msgL1005 c q) (by decide) (by decide)

theorem msgL4003_ne_l1006 (t : Str) (c q : Directive) :
    msgL4003 t ≠ msgL1006 c q :=
  msg_ne_of_code (code_msgL4003 t) (code_msgL1006 c q) (by decide) (by decide)

theorem msgL4003_ne_l1008 (t : Str) (q : Directive) : msgL4003 t ≠ msgL1008 q :=
  msg_ne_of_code (code_msgL4003 t) (code_msgL1008 q) (by decide) (by decide)

theorem msgL4003_ne_l3001 (t : Str) : msgL4003 t ≠ msgL3001 :=
  msg_ne_of_code (code_msgL4003 t) code_msgL3001 (by decide) (by decide)

theorem msgL4003_ne_l3002 (t : Str) : msgL4003 t ≠ msgL3002 :=
  msg_ne_of_code (code_msgL4003 t) code_msgL3002 (by decide) (by decide)

theorem msgL4003_ne_l3003 (t : Str) : msgL4003 t ≠ msgL3003 :=
  msg_ne_of_code (code_msgL4003 t) code_msgL3003 (by decide) (by decide)

theorem msgL4003_ne_l1009 (t pat : Str) : msgL4003 t ≠ msgL1009 pat :=
  msg_ne_of_code (code_msgL4003 t) (code_msgL1009 pat) (by decide) (by decide)

theorem msgL4003_ne_l1011 (t : Str) (q : Directive) : msgL4003 t ≠ msgL1011 q :=
  msg_ne_of_code (code_msgL4003 t) (code_msgL1011 q) (by decide) (by decide)

theorem msgL4003_ne_l1012 (t : Str) (q : Directive) : msgL4003 t ≠ msgL1012 q :=
  msg_ne_of_code (code_msgL4003 t) (code_msgL1012 q) (by decide) (by decide)

theorem msgL4003_ne_l1003 (t : Str) (q : Directive) : msgL4003 t ≠ msgL1003 q :=
  msg_ne_of_code (code_msgL4003 t) (code_msgL1003 q) (by decide) (by decide)

theorem msgL4003_ne_l1004 (t : Str) (q : Directive) : msgL4003 t ≠ msgL1004 q :=
  msg_ne_of_code (code_msgL4003 t) (code_msgL1004 q) (by decide) (by decide)

theorem msgL4003_ne_l1001 (t : Str) (q : Directive) : msgL4003 t ≠ msgL1001 q :=
  msg_ne_of_code (code_msgL4003 t) (code_msgL1001 q) (by decide) (by decide)

theorem msgL4003_ne_l2001 (t : Str) : msgL4003 t ≠ msgL2001 :=
  msg_ne_of_code (code_msgL4003 t) code_msgL2001 (by decide) (by decide)

theorem msgL4003_ne_l2004 (t q : Str) : msgL4003 t ≠ msgL2004 q :=
  msg_ne_of_code (code_msgL4003 t) (code_msgL2004 q) (by decide) (by decide)

theorem msgL4003_ne_l9002 (t : Str) : msgL4003 t ≠ msgL9002 :=
  msg_ne_of_code (code_msgL4003 t) code_msgL9002 (by decide) (by decide)

theorem msgL4003_ne_l1013 (t : Str) (q : Directive) : msgL4003 t ≠ msgL1013 q :=
  msg_ne_of_code (code_msgL4003 t) (code_msgL1013 q) (by decide) (by decide)

theorem msgL4003_ne_l3005 (t e : Str) : msgL4003 t ≠ msgL3005 e :=
  msg_ne_of_code (code_msgL4003 t) (code_msgL3005 e) (by decide) (by decide)

theorem msgL4003_ne_l2002 (t q : Str) : msgL4003 t ≠ msgL2002 q :=
  msg_ne_of_code (code_msgL4003 t) (code_msgL2002 q) (by decide) (by decide)

theorem msgL4003_ne_l2005 (t q : Str) : msgL4003 t ≠ msgL2005 q :=
  msg_ne_of_code (code_msgL4003 t) (code_msgL2005 q) (by decide) (by decide)

theorem msgL4003_ne_l3004 (t : Str) : msgL4003 t ≠ msgL3004 :=
  msg_ne_of_code (code_msgL4003 t) code_msgL3004 (by decide) (by decide)

theorem msgL4003_ne_l1002 (t : Str) (q : Directive) : msgL4003 t ≠ msgL1002 q :=
  msg_ne_of_code (code_msgL4003 t) (code_msgL1002 q) (by decide) (by decide)

theorem msgL4003_ne_l1010 (t : Str) : msgL4003 t ≠ msgL1010 :=
  msg_ne_of_code (code_msgL4003 t) code_msgL1010 (by decide) (by decide)

theorem msgL4003_ne_l2003 (t : Str) : msgL4003 t ≠ msgL2003 :=
  msg_ne_of_code (code_msgL4003 t) code_msgL2003 (by decide) (by decide)

theorem msgL4003_ne_l3009 (t : Str) : msgL4003 t ≠ msgL3009 :=
  msg_ne_of_code (code_msgL4003 t) code_msgL3009 (by decide) (by decide)

theorem msgL4003_ne_l3006 (t : Str) : msgL4003 t ≠ msgL3006 :=
  msg_ne_of_code (code_msgL4003 t) code_msgL3006 (by decide) (by decide)

theorem msgL4003_ne_l3007 (t : Str) : msgL4003 t ≠ msgL3007 :=
  msg_ne_of_code (code_msgL4003 t) code_msgL3007 (by decide) (by decide)

theorem msgL4003_ne_l4005 (t q : Str) : msgL4003 t ≠ msgL4005 q :=
  msg_ne_of_code (code_msgL4003 t) (code_msgL4005 q) (by decide) (by decide)

theorem msgL4003_ne_l4001 (t q : Str) : msgL4003 t ≠ msgL4001 q :=
  msg_ne_of_code (code_msgL4003 t) (code_msgL4001 q) (by decide) (by decide)

theorem msgL4003_ne_l4002 (t q : Str) (o : Directive) :
    msgL4003 t ≠ msgL4002 q o :=
  msg_ne_of_code (code_msgL4003 t) (code_msgL4002 q o) (by decide) (by decide)

theorem msgL4003_ne_l9003 (t e : Str) : msgL4003 t ≠ msgL9003 e := by
  intro h
  have hh := congrArg List.head? h
  rw [head_msgL4003, head_msgL9003] at hh
  exact absurd (Option.some.inj hh) (by decide)

theorem msgL1009_ne_l4003 (t pat : Str) : msgL1009 pat ≠ msgL4003 t :=
  (msgL4003_ne_l1009 t pat).symm

theorem ProcessOptionOpener_no4003 (l : Linter) (t : Str) :
    msgL4003 t ∉ (ProcessOptionOpener l).1 := by
  unfold ProcessOptionOpener
  try dsimp only
  repeat' split
  all_goals simp_all [msgL4003_ne_l1005]

theorem ProcessOptionCloser_no4003 (l : Linter) (t : Str) :
    msgL4003 t ∉ (ProcessOptionCloser l).1 := by
  unfold ProcessOptionCloser
  try dsimp only
  repeat' split
  all_goals simp_all [msgL4003_ne_l1006]

theorem ProcessProxyHostnameEdit_no4003 (l : Linter) (line t : Str) :
    msgL4003 t ∉ (ProcessProxyHostnameEdit l line).1 := by
  unfold ProcessProxyHostnameEdit
  try dsimp only
  repeat' split
  all_goals
    simp_all [msgL4003_ne_l1008, msgL4003_ne_l3001, msgL4003_ne_l3002,
      msgL4003_ne_l3003, msgL4003_ne_l1009, msgL1009_ne_l4003]

theorem ProcessAddUserHeader_no4003 (l : Linter) (line t : Str) :
    msgL4003 t ∉ (ProcessAddUserHeader l line).1 := by
  unfold ProcessAddUserHeader
  try dsimp only
  repeat' split
  all_goals simp_all [msgL4003_ne_l1011, msgL4003_ne_l1012]

theorem ProcessAnonymousURL_no4003 (l : Linter) (line t : Str) :
    msgL4003 t ∉ (ProcessAnonymousURL l line).1 := by
  unfold ProcessAnonymousURL
  try dsimp only
  repeat' split
  all_goals simp_all [msgL4003_ne_l1003, msgL4003_ne_l1004]

theorem ProcessTitle_no4003 (l : Linter) (line loc t : Str) :
    msgL4003 t ∉ (ProcessTitle l line loc).1 := by
  unfold ProcessTitle
  try dsimp only
  repeat' split
  all_goals
    simp_all [msgL4003_ne_l1001, msgL4003_ne_l2001, msgL4003_ne_l2004,
      msgL4003_ne_l9002]

theorem ProcessDescription_no4003 (l : Linter) (line loc t : Str) :
    msgL4003 t ∉ (ProcessDescription l line loc).1 := by
  unfold ProcessDescription
  try dsimp only
  repeat' split
  all_goals simp_all [msgL4003_ne_l1013]

theorem ProcessHostAndHostJavaScript_no4003 (p : Parse) (l : Linter)
    (line loc t : Str) :
    msgL4003 t ∉ (ProcessHostAndHostJavaScript p l line loc).1 := by
  unfold ProcessHostAndHostJavaScript
  try dsimp only
  repeat' split
  all_goals
    simp_all [msgL4003_ne_l3005, msgL4003_ne_l2002, msgL4003_ne_l2005]

theorem ProcessDomainAndDomainJavaScript_no4003 (p : Parse) (l : Linter)
    (line t : Str) :
    msgL4003 t ∉ (ProcessDomainAndDomainJavaScript p l line).1 := by
  unfold ProcessDomainAndDomainJavaScript
  try dsimp only
  repeat' split
  all_goals simp_all [msgL4003_ne_l3005, msgL4003_ne_l3004]

theorem ProcessURL_no4003 (p : Parse) (l : Linter) (line loc t : Str) :
    msgL4003 t ∉ (ProcessURL p l line loc).1 := by
  unfold ProcessURL
  try dsimp only
  repeat' split
  all_goals
    simp_all [msgL4003_ne_l1002, msgL4003_ne_l1010, msgL4003_ne_l2003,
      msgL4003_ne_l3009, msgL4003_ne_l3005, msgL4003_ne_l3006,
      msgL4003_ne_l3007, msgL4003_ne_l2002]

theorem dispatchDirective_no4003 (p : Parse) (l : Linter) (line loc : Str)
    (d : Directive) (t : Str) :
    msgL4003 t ∉ (dispatchDirective p l line loc d).1 := by
  unfold dispatchDirective
  split
  · exact ProcessProxyHostnameEdit_no4003 _ _ _
  · exact ProcessAddUserHeader_no4003 _ _ _
  · exact ProcessAnonymousURL_no4003 _ _ _
  · exact ProcessTitle_no4003 _ _ _ _
  · exact ProcessDescription_no4003 _ _ _ _
  · exact ProcessURL_no4003 _ _ _ _ _
  · exact ProcessHostAndHostJavaScript_no4003 _ _ _ _ _
  · exact ProcessHostAndHostJavaScript_no4003 _ _ _ _ _
  · exact ProcessDomainAndDomainJavaScript_no4003 _ _ _ _
  · exact ProcessDomainAndDomainJavaScript_no4003 _ _ _ _
  · simp

theorem processOptionPhase_no4003 (l : Linter) (d : Directive) (t : Str) :
    msgL4003 t ∉ (processOptionPhase l d).1 := by
  unfold processOptionPhase
  split
  · exact ProcessOptionOpener_no4003 _ _
  · split
    · exact ProcessOptionCloser_no4003 _ _
    · simp

theorem processDirective_no4003 (p : Parse) (l : Linter) (m0 : List Str)
    (line loc lbl : Str) (d : Directive) (wc : Bool) (t : Str)
    (h0 : msgL4003 t ∉ m0) :
    msgL4003 t ∉ (processDirective p l m0 line loc lbl d wc).1 := by
  unfold processDirective
  dsimp only
  split
  · simp only [List.mem_append, not_or]
    refine ⟨⟨h0, ?_⟩, ?_⟩
    · split
      · simp [msgL4003_ne_l5001]
      · simp
    · split
      · simp [msgL4003_ne_l4004]
      · simp
  · simp only [List.mem_append, not_or]
    refine ⟨⟨⟨⟨h0, ?_⟩, ?_⟩, ?_⟩, ?_⟩
    · split
      · simp [msgL4003_ne_l5001]
      · simp
    · split
      · simp [msgL4003_ne_l4004]
      · simp
    · exact processOptionPhase_no4003 _ _ _
    · exact dispatchDirective_no4003 _ _ _ _ _ _

theorem processComment_no4003 (fs : Fetch) (l : Linter) (m0 : List Str)
    (line t : Str) (h0 : msgL4003 t ∉ m0) :
    msgL4003 t ∉ (processComment fs l m0 line).1 := by
  unfold processComment
  try dsimp only
  repeat' split
  all_goals simp_all [msgL4003_ne_l9003]

/-- Only the stanza-boundary branch of ProcessLineAt can emit the
Title-but-no-URL diagnostic: any call on a line that is nonempty and
not a bare comment marker after trimming emits no L4003 message. -/
theorem processLineAt_no4003 (p : Parse) (fs : Fetch) (l : Linter)
    (line loc : Str) {ms : List Str} {l' : Linter}
    (hnb : goTrimSpace line ≠ []) (hnb2 : goTrimSpace line ≠ "#".data)
    (hrun : ProcessLineAt p fs l line loc = some (ms, l')) (t : Str) :
    msgL4003 t ∉ ms := by
  have h0 : msgL4003 t ∉
      (if l.Whitespace && TrailingSpaceOrTabCheck line then [msgL5002]
       else []) := by
    split
    · simp [msgL4003_ne_l5002]
    · simp
  unfold ProcessLineAt at hrun
  dsimp only at hrun
  rw [if_neg (by simp [hnb, hnb2])] at hrun
  split at hrun
  · have h1 : _ = ms := congrArg Prod.fst (Option.some.inj hrun)
    rw [← h1]
    exact processComment_no4003 fs _ _ _ t h0
  · split at hrun
    · have h1 : _ = ms := congrArg Prod.fst (Option.some.inj hrun)
      rw [← h1]
      exact h0
    · split at hrun
      · exact absurd hrun (by simp)
      · have h1 : _ = ms := congrArg Prod.fst (Option.some.inj hrun)
        rw [← h1]
        intro hmem
        rcases List.mem_append.1 hmem with h | h
        · exact h0 h
        · rw [List.mem_singleton] at h
          exact msgL4003_ne_l3008 t h
      · have h1 : _ = ms := congrArg Prod.fst (Option.some.inj hrun)
        rw [← h1]
        intro hmem
        rcases List.mem_append.1 hmem with h | h
        · exact h0 h
        · rw [List.mem_singleton] at h
          exact msgL4003_ne_l9001 t _ h
      · have h1 : _ = ms := congrArg Prod.fst (Option.some.inj hrun)
        rw [← h1]
        exact processDirective_no4003 _ _ _ _ _ _ _ _ t h0

/-- Result of processing a bare Title directive with empty payload from
a fresh linter. -/
def c1Res1 : List Str × Linter :=
  (ProcessLineAt simpleParse simpleFetch Linter.zero (("Title").data)
    ("f:1").data).getD ([], Linter.zero)

/-- Result of the stanza-closing blank line after the bare Title. -/
def c1Res2 : List Str × Linter :=
  (ProcessLineAt simpleParse simpleFetch c1Res1.2 [] ("f:2").data).getD
    ([], Linter.zero)

/-- C1 counterexample: a stanza consisting of a bare Title directive
with empty payload followed by the closing blank line.  The Title
directive IS processed (previousDirective becomes Title), no URL
follows, and the stanza is not a separator, yet the boundary call
emits nothing at all: the stored title string is empty, so the
Title-but-no-URL diagnostic is skipped. -/
theorem claim_C1_counterexample :
    c1Res1.2.State.Previous = Directive.Title ∧
    c1Res1.2.State.URL = [] ∧
    c1Res1.2.State.IsSeparator = false ∧
    c1Res1.2.State.Title = [] ∧
    c1Res2.1 = [] := by decide

/-- C1 (amended): the boundary call emits the Title-but-no-URL
diagnostic exactly once when the stored title string is non-empty, the
stored URL is empty and the stanza is not a Description separator, and
zero times otherwise; the stored title is empty whenever the Title
payload was empty, and no non-boundary call ever emits an L4003
message. -/
theorem claim_C1_l4003_once_at_boundary (p : Parse) (fs : Fetch) (l : Linter)
    (line loc : Str)
    (hb : goTrimSpace line = [] ∨ goTrimSpace line = "#".data)
    {ms : List Str} {l' : Linter}
    (hrun : ProcessLineAt p fs l line loc = some (ms, l')) :
    (ms.count (msgL4003 l.State.Title) =
      if l.State.Title ≠ [] && l.State.URL = [] && !l.State.IsSeparator then 1
      else 0) ∧
    (∀ (l2 : Linter) (line2 loc2 : Str) (ms2 : List Str) (l2' : Linter)
      (t : Str), goTrimSpace line2 ≠ [] → goTrimSpace line2 ≠ "#".data →
      ProcessLineAt p fs l2 line2 loc2 = some (ms2, l2') →
      msgL4003 t ∉ ms2) := by
  constructor
  · unfold ProcessLineAt at hrun
    dsimp only at hrun
    rw [if_pos (by rcases hb with hb | hb <;> simp [hb])] at hrun
    have h1 : _ = ms := congrArg Prod.fst (Option.some.inj hrun)
    rw [← h1]
    unfold processBoundary
    dsimp only
    simp only [List.count_append]
    have c0 : (if l.Whitespace && TrailingSpaceOrTabCheck line then [msgL5002]
        else []).count (msgL4003 l.State.Title) = 0 := by
      split
      · simp [List.count_eq_zero, msgL4003_ne_l5002]
      · rfl
    have c2 : (if l.State.AddUserHeaderNeedsClosing then
        [msgL4005 l.State.Title] else []).count (msgL4003 l.State.Title)
        = 0 := by
      split
      · simp [List.count_eq_zero, msgL4003_ne_l4005]
      · rfl
    have c3 : (if l.State.AnonymousURLNeedsClosing then
        [msgL4001 l.State.Title] else []).count (msgL4003 l.State.Title)
        = 0 := by
      split
      · simp [List.count_eq_zero, msgL4003_ne_l4001]
      · rfl
    have c4 : (l.State.OpenOptions.map
        (fun option => msgL4002 l.State.Title option)).count
        (msgL4003 l.State.Title) = 0 := by
      rw [List.count_eq_zero]
      simp only [List.mem_map, not_exists]
      rintro o ⟨-, ho⟩
      exact msgL4003_ne_l4002 _ _ o ho.symm
    rw [c0, c2, c3, c4]
    split
    · simp
    · simp
  · intro l2 line2 loc2 ms2 l2' t hA hB hr
    exact processLineAt_no4003 p fs l2 line2 loc2 hA hB hr t

/-- A linter holding a non-empty stored title and no URL. -/
def c1L : Linter :=
  { Linter.zero with State := { Linter.zero.State with Title := ("A").data } }

/-- Result of the stanza-closing blank line from that state. -/
def c1Res3 : List Str × Linter :=
  (ProcessLineAt simpleParse simpleFetch c1L [] ("f:3").data).getD
    ([], Linter.zero)

/-- Witness for the amended C1 at a concrete input: with a non-empty
stored title and no URL, the boundary line emits the diagnostic exactly
once. -/
theorem claim_C1_l4003_once_at_boundary_witness :
    c1Res3.1.count (msgL4003 c1L.State.Title) = 1 :=
  ((claim_C1_l4003_once_at_boundary simpleParse simpleFetch c1L []
    ("f:3").data (Or.inl rfl) rfl).1).trans (by decide)

theorem mapGet_nil (k : Str) : mapGet [] k = none := rfl

theorem mapGet_cons_hit (k q : Str) (rest : List (Str × Str)) :
    mapGet ((k, q) :: rest) k = some q := by
  simp [mapGet, List.find?_cons_of_pos]

/-- One ProcessLineAt call on a Host or HostJavaScript line whose value
parses with a non-empty host: the cross-stanza map alone decides the
origin-already-seen diagnostic and supplies the cited location, the
stanza map alone decides the within-stanza duplicate note, and the
origin is recorded in the stanza map when new; the cross-stanza map
itself is never touched by the line. -/
theorem hostjs_step (p : Parse) (fs : Fetch) (l : Linter) (lbl v loc : Str)
    (d : Directive)
    (hlbl : tokenB lbl = true) (hv : tokenB v = true)
    (hopt : lbl ≠ "Option".data) (hlk : lookupLabel lbl = some d)
    (hd : d = Directive.Host ∨ d = Directive.HostJavaScript)
    (hcmt : goHasPfx "#".data (lbl ++ ' ' :: v) = false)
    (hbs : goHasSfx "\x5c".data (lbl ++ ' ' :: v) = false)
    (hm : l.State.InMultiline = false) (hw : l.Whitespace = false)
    {u : URLRec} (hp : p v = .ok u) (hh : ¬u.host = []) :
    ProcessLineAt p fs l (lbl ++ ' ' :: v) loc =
      some (
        (if l.State.Previous = Directive.Find then [msgL4004] else []) ++
        (match mapGet l.PreviousOrigins (u.scheme ++ ("://").data ++ u.host) with
         | some q => [msgL2002 q]
         | none => []) ++
        (match mapGet l.State.StanzaOrigins (u.scheme ++ ("://").data ++ u.host) with
         | some q => if l.Origins then [msgL2005 q] else []
         | none => []),
        { l with State :=
            { l.State with LastLineEmpty := false, IsSeparator := false, Current := d, Label := lbl, Previous := d, StanzaOrigins := match mapGet l.State.StanzaOrigins (u.scheme ++ ("://").data ++ u.host) with | some _ => l.State.StanzaOrigins | none => mapSet l.State.StanzaOrigins (u.scheme ++ ("://").data ++ u.host) loc } }) := by
  have hoc : d ≠ Directive.OptionCookie := by
    rcases hd with h | h <;> subst h <;> decide
  have hrep : d ≠ Directive.Replace := by
    rcases hd with h | h <;> subst h <;> decide
  have hop : openerOptions.contains d = false := by
    rcases hd with h | h <;> subst h <;> decide
  have hcls : closerOptions.contains d = false := by
    rcases hd with h | h <;> subst h <;> decide
  have hdis : ∀ (l3 : Linter),
      dispatchDirective p l3 (lbl ++ ' ' :: v) loc d =
        ProcessHostAndHostJavaScript p l3 (lbl ++ ' ' :: v) loc := by
    intro l3
    rcases hd with h | h <;> subst h <;> rfl
  have hsplit : goSplitSpace (lbl ++ ' ' :: v) = lbl :: [v] := by
    rw [goSplitSpace_token_append (fun c hc => tokenB_no_space_char hlbl hc)]
    rw [goSplitSpace_no_space (fun c hc => tokenB_no_space_char hv hc)]
  have htrim : goTrimSpace (lbl ++ ' ' :: v) = lbl ++ ' ' :: v :=
    goTrimSpace_two_tokens hlbl hv
  have hlne : lbl ≠ [] := tokenB_ne_nil hlbl
  have hne : lbl ++ ' ' :: v ≠ [] := by
    cases lbl
    · exact absurd rfl hlne
    · simp
  have hne2 : lbl ++ ' ' :: v ≠ "#".data := by
    intro hq
    have hlen := congrArg List.length hq
    simp [List.length_append] at hlen
    have h1 : 0 < lbl.length := List.length_pos.mpr hlne
    omega
  have hcl := classifyLine_of_split hsplit hopt
  rw [hlk] at hcl
  rw [processLineAt_classify_step p fs l _ loc hm htrim hne hne2 hcmt hbs, hcl]
  simp only [Option.map_some']
  rw [processDirective_plain p _ _ _ loc _ _ _ hoc hop hcls]
  dsimp only
  rw [hdis]
  unfold ProcessHostAndHostJavaScript
  dsimp only
  rw [TrimLabel_append, goTrimSpace_token hv, hp]
  dsimp only
  rw [if_neg hh]
  simp only [List.append_assoc, List.cons_append, List.nil_append]
  rcases h2 : mapGet l.State.StanzaOrigins
      (u.scheme ++ ':' :: '/' :: '/' :: u.host) with _ | q2 <;>
    simp [hw, h2, hrep]

/-! Pointwise behaviour of the association-list maps, used to state how
a stanza close folds the stanza origins over the cross-stanza map. -/

theorem mapGet_cons (k0 v0 : Str) (rest : List (Str × Str)) (k : Str) :
    mapGet ((k0, v0) :: rest) k = if k0 = k then some v0 else mapGet rest k := by
  by_cases h : k0 = k
  · simp [mapGet, List.find?, h]
  · simp [mapGet, List.find?, h]

theorem mapGet_eq_none_of_not_mem {m : List (Str × Str)} {k : Str}
    (h : k ∉ m.map Prod.fst) : mapGet m k = none := by
  induction m with
  | nil => rfl
  | cons a rest ih =>
    rcases a with ⟨ak, av⟩
    rw [mapGet_cons]
    simp only [List.map_cons, List.mem_cons, not_or] at h
    rw [if_neg (fun he => h.1 he.symm)]
    exact ih h.2

theorem mapGet_map_replace_self (v : Str) {k : Str} :
    ∀ (m : List (Str × Str)), (mapGet m k).isSome = true →
    mapGet (m.map (fun kv => if kv.1 = k then (k, v) else kv)) k = some v := by
  intro m
  induction m with
  | nil => intro h; simp [mapGet] at h
  | cons a rest ih =>
    rcases a with ⟨ak, av⟩
    intro hp
    by_cases hak : ak = k
    · subst hak
      dsimp only [List.map_cons]
      rw [if_pos rfl, mapGet_cons, if_pos rfl]
    · dsimp only [List.map_cons]
      rw [if_neg hak, mapGet_cons, if_neg hak]
      rw [mapGet_cons, if_neg hak] at hp
      exact ih hp

theorem mapGet_map_replace_ne {k kq : Str} (hne : k ≠ kq) (v : Str) :
    ∀ (m : List (Str × Str)),
    mapGet (m.map (fun kv => if kv.1 = k then (k, v) else kv)) kq
      = mapGet m kq := by
  intro m
  induction m with
  | nil => rfl
  | cons a rest ih =>
    rcases a with ⟨ak, av⟩
    by_cases hak : ak = k
    · subst hak
      dsimp only [List.map_cons]
      rw [if_pos rfl]
      simp [mapGet_cons, hne, ih]
    · dsimp only [List.map_cons]
      rw [if_neg hak]
      simp [mapGet_cons, ih]

theorem mapGet_append_single_self {m : List (Str × Str)} {k : Str} (v : Str)
    (h : mapGet m k = none) : mapGet (m ++ [(k, v)]) k = some v := by
  induction m with
  | nil => rw [List.nil_append, mapGet_cons, if_pos rfl]
  | cons a rest ih =>
    rcases a with ⟨ak, av⟩
    rw [mapGet_cons] at h
    by_cases hak : ak = k
    · rw [if_pos hak] at h
      exact absurd h (by simp)
    · rw [if_neg hak] at h
      rw [List.cons_append, mapGet_cons, if_neg hak]
      exact ih h

theorem mapGet_append_single_ne {k kq : Str} (hne : k ≠ kq) (v : Str)
    (m : List (Str × Str)) : mapGet (m ++ [(k, v)]) kq = mapGet m kq := by
  induction m with
  | nil => rw [List.nil_append, mapGet_cons, if_neg hne]
  | cons a rest ih =>
    rcases a with ⟨ak, av⟩
    rw [List.cons_append, mapGet_cons, mapGet_cons, ih]

theorem mapGet_mapSet_self (m : List (Str × Str)) (k v : Str) :
    mapGet (mapSet m k v) k = some v := by
  unfold mapSet
  split_ifs with hfind
  · exact mapGet_map_replace_self v m
      (by unfold mapGet; simpa [Option.isSome_map] using hfind)
  · refine mapGet_append_single_self v ?_
    unfold mapGet
    rcases hf : m.find? (fun kv => kv.1 = k) with _ | x
    · rw [hf]
      rfl
    · rw [hf] at hfind
      exact absurd rfl hfind

theorem mapGet_mapSet_ne (m : List (Str × Str)) {k kq : Str} (v : Str)
    (hne : k ≠ kq) : mapGet (mapSet m k v) kq = mapGet m kq := by
  unfold mapSet
  split_ifs with hfind
  · exact mapGet_map_replace_ne hne v m
  · exact mapGet_append_single_ne hne v m

theorem mapCopy_cons (d : List (Str × Str)) (k0 v0 : Str)
    (rest : List (Str × Str)) :
    mapCopy d ((k0, v0) :: rest) = mapCopy (mapSet d k0 v0) rest := rfl

theorem mapGet_mapCopy_of_src_none :
    ∀ (s d : List (Str × Str)) (k : Str), mapGet s k = none →
    mapGet (mapCopy d s) k = mapGet d k := by
  intro s
  induction s with
  | nil => intro d k _; rfl
  | cons a rest ih =>
    rcases a with ⟨ak, av⟩
    intro d k h
    rw [mapGet_cons] at h
    by_cases hak : ak = k
    · rw [if_pos hak] at h
      exact absurd h (by simp)
    · rw [if_neg hak] at h
      rw [mapCopy_cons, ih _ _ h, mapGet_mapSet_ne _ _ hak]

/-- Copying a map with pairwise-distinct keys over any destination:
every source entry wins, overwriting whatever the destination held. -/
theorem mapGet_mapCopy_of_nodup :
    ∀ (s d : List (Str × Str)) (k q : Str), (s.map Prod.fst).Nodup →
    mapGet s k = some q → mapGet (mapCopy d s) k = some q := by
  intro s
  induction s with
  | nil => intro d k q _ h; exact absurd h (by simp [mapGet])
  | cons a rest ih =>
    rcases a with ⟨ak, av⟩
    intro d k q hnd h
    obtain ⟨hha, hnd2⟩ := List.nodup_cons.1 hnd
    rw [mapGet_cons] at h
    by_cases hak : ak = k
    · rw [if_pos hak] at h
      have hq : av = q := Option.some.inj h
      subst hq
      rw [mapCopy_cons]
      have hrest : mapGet rest k = none := by
        apply mapGet_eq_none_of_not_mem
        rw [← hak]
        exact hha
      rw [mapGet_mapCopy_of_src_none rest _ _ hrest, ← hak]
      exact mapGet_mapSet_self d ak av
    · rw [if_neg hak] at h
      rw [mapCopy_cons]
      exact ih _ _ _ hnd2 h

/-- A stanza close folds the origin records of the closing stanza over the
cross-stanza map: a recorded stanza origin always ends up in
PreviousOrigins with the location from the closing stanza, overwriting any
location stored by an earlier stanza. -/
theorem processBoundary_origin_overwrite (l : Linter) (m0 : List Str)
    {o q : Str} (hnd : (l.State.StanzaOrigins.map Prod.fst).Nodup)
    (h : mapGet l.State.StanzaOrigins o = some q) :
    mapGet (processBoundary l m0).2.PreviousOrigins o = some q := by
  unfold processBoundary
  dsimp only
  exact mapGet_mapCopy_of_nodup _ _ _ _ hnd h

theorem msgL2002_ne_l1002 (q : Str) (dd : Directive) :
    msgL2002 q ≠ msgL1002 dd :=
  msg_ne_of_code (code_msgL2002 q) (code_msgL1002 dd) (by decide) (by decide)

theorem msgL2002_ne_l1010 (q : Str) : msgL2002 q ≠ msgL1010 :=
  msg_ne_of_code (code_msgL2002 q) code_msgL1010 (by decide) (by decide)

theorem msgL2002_ne_l2003 (q : Str) : msgL2002 q ≠ msgL2003 :=
  msg_ne_of_code (code_msgL2002 q) code_msgL2003 (by decide) (by decide)

theorem msgL2002_ne_l3009 (q : Str) : msgL2002 q ≠ msgL3009 :=
  msg_ne_of_code (code_msgL2002 q) code_msgL3009 (by decide) (by decide)

theorem msgL2002_ne_l3007 (q : Str) : msgL2002 q ≠ msgL3007 :=
  msg_ne_of_code (code_msgL2002 q) code_msgL3007 (by decide) (by decide)

/-- The URL handler consults the same cross-stanza map for the same
diagnostic: a mapped origin is reported with the stored location, an
unmapped origin produces no origin-already-seen message. -/
theorem processURL_l2002 (p : Parse) (l : Linter) (line loc : Str)
    {u : URLRec} (hp : p (FindURLFromLine line) = .ok u)
    (hh : ¬u.host = []) :
    (∀ q, mapGet l.PreviousOrigins (u.scheme ++ ("://").data ++ u.host)
        = some q → msgL2002 q ∈ (ProcessURL p l line loc).1) ∧
    (mapGet l.PreviousOrigins (u.scheme ++ ("://").data ++ u.host) = none →
      ∀ q, msgL2002 q ∉ (ProcessURL p l line loc).1) := by
  unfold ProcessURL
  dsimp only
  rw [hp]
  dsimp only
  rw [if_neg hh]
  constructor
  · intro q hq
    rw [hq]
    simp
  · intro hq q
    rw [hq]
    simp only [List.append_nil]
    simp only [List.mem_append, not_or]
    refine ⟨⟨⟨⟨?_, ?_⟩, ?_⟩, ?_⟩, ?_⟩
    · split
      · simp
      · simp [msgL2002_ne_l1002]
    · split
      · simp [msgL2002_ne_l1010]
      · simp
    · split
      · simp [msgL2002_ne_l2003]
      · simp
    · split
      · simp [msgL2002_ne_l3009]
      · simp
    · split
      · simp [msgL2002_ne_l3007]
      · simp

/-- A linter state holding one flushed origin in the cross-stanza
map. -/
def c6L2 (u1 : URLRec) (loc1 : Str) : Linter :=
  { Linter.zero with State := { State.zero with LastLineEmpty := true }, PreviousOrigins := [(u1.scheme ++ ("://").data ++ u1.host, loc1)] }

/-- C6 counterexample: three stanzas with the same origin.  The third
occurrence is reported citing the SECOND occurrence\x27s location, not
the first: each stanza close overwrites the cross-stanza map entry with
the newest location. -/
theorem claim_C6_counterexample :
    Option.map Prod.fst (runLines simpleParse simpleFetch Linter.zero
      [((("HJ").data ++ ' ' :: ("http://x.com").data), ("f:1").data),
       ([], ("f:2").data),
       ((("HJ").data ++ ' ' :: ("http://x.com").data), ("f:3").data),
       ([], ("f:4").data),
       ((("HJ").data ++ ' ' :: ("http://x.com").data), ("f:5").data)])
      = some [[], [], [msgL2002 (("f:1").data)], [],
              [msgL2002 (("f:3").data)]] ∧
    msgL2002 (("f:3").data) ≠ msgL2002 (("f:1").data) := by
  constructor
  · decide
  · decide

/-- C6 (amended): for every linter state, a Host or HostJavaScript line
whose value parses with a non-empty host emits the origin-already-seen
diagnostic exactly when its origin is in the cross-stanza map, citing
the location stored there, and never touches that map itself; a
same-origin repeat is only noted against the stanza map, so repeats
within one open stanza never produce the cross-stanza diagnostic; the
stored location is the most recent prior record, because every stanza
close folds the origins of the closing stanza over the cross-stanza map,
overwriting older entries; and the URL handler consults the same map
the same way. -/
theorem claim_C6_origin_cited_from_map (p : Parse) (fs : Fetch) (l : Linter)
    (lbl v loc : Str) (d : Directive)
    (hlbl : tokenB lbl = true) (hv : tokenB v = true)
    (hopt : lbl ≠ "Option".data) (hlk : lookupLabel lbl = some d)
    (hd : d = Directive.Host ∨ d = Directive.HostJavaScript)
    (hcmt : goHasPfx "#".data (lbl ++ ' ' :: v) = false)
    (hbs : goHasSfx "\x5c".data (lbl ++ ' ' :: v) = false)
    (hm : l.State.InMultiline = false) (hw : l.Whitespace = false)
    {u : URLRec} (hp : p v = .ok u) (hh : ¬u.host = []) :
    (ProcessLineAt p fs l (lbl ++ ' ' :: v) loc =
      some (
        (if l.State.Previous = Directive.Find then [msgL4004] else []) ++
        (match mapGet l.PreviousOrigins (u.scheme ++ ("://").data ++ u.host) with
         | some q => [msgL2002 q]
         | none => []) ++
        (match mapGet l.State.StanzaOrigins (u.scheme ++ ("://").data ++ u.host) with
         | some q => if l.Origins then [msgL2005 q] else []
         | none => []),
        { l with State :=
            { l.State with LastLineEmpty := false, IsSeparator := false, Current := d, Label := lbl, Previous := d, StanzaOrigins := match mapGet l.State.StanzaOrigins (u.scheme ++ ("://").data ++ u.host) with | some _ => l.State.StanzaOrigins | none => mapSet l.State.StanzaOrigins (u.scheme ++ ("://").data ++ u.host) loc } })) ∧
    (∀ (l2 : Linter) (m0 : List Str) (o q : Str),
      (l2.State.StanzaOrigins.map Prod.fst).Nodup →
      mapGet l2.State.StanzaOrigins o = some q →
      mapGet (processBoundary l2 m0).2.PreviousOrigins o = some q) ∧
    (∀ (l2 : Linter) (line2 loc2 : Str) (u2 : URLRec),
      p (FindURLFromLine line2) = .ok u2 → ¬u2.host = [] →
      (∀ q, mapGet l2.PreviousOrigins (u2.scheme ++ ("://").data ++ u2.host)
          = some q → msgL2002 q ∈ (ProcessURL p l2 line2 loc2).1) ∧
      (mapGet l2.PreviousOrigins (u2.scheme ++ ("://").data ++ u2.host)
          = none →
        ∀ q, msgL2002 q ∉ (ProcessURL p l2 line2 loc2).1)) := by
  refine ⟨hostjs_step p fs l lbl v loc d hlbl hv hopt hlk hd hcmt hbs hm hw
    hp hh, ?_, ?_⟩
  · intro l2 m0 o q hnd hq
    exact processBoundary_origin_overwrite l2 m0 hnd hq
  · intro l2 line2 loc2 u2 hp2 hh2
    exact processURL_l2002 p l2 line2 loc2 hp2 hh2

/-- Witness for the amended C6 at a concrete input: with one flushed
origin in the cross-stanza map, the same host in the next stanza is
reported citing the stored location. -/
theorem claim_C6_origin_cited_from_map_witness :
    Option.map Prod.fst (ProcessLineAt simpleParse simpleFetch
      (c6L2 ⟨("http").data, ("x.com").data, []⟩ (("f:1").data))
      (("HJ").data ++ ' ' :: ("http://x.com").data) (("f:3").data))
      = some [msgL2002 (("f:1").data)] := by
  have h := claim_C6_origin_cited_from_map simpleParse simpleFetch
    (c6L2 ⟨("http").data, ("x.com").data, []⟩ (("f:1").data))
    (("HJ").data) (("http://x.com").data) (("f:3").data)
    Directive.HostJavaScript (by decide) (by decide) (by decide) (by decide)
    (Or.inr rfl) (by decide) (by decide) rfl rfl rfl (by decide)
  rw [h.1]
  rfl

end EZLint
